import Mathlib

/-!
Verification development for the `dashboard-dl` repository
(`src/dashboard_dl/downloader.py`, `src/dashboard_dl/main.py`).

The Python code manipulates JSON-decoded data (dicts, lists, strings,
numbers, booleans, `None`) with dynamic typing.  We shallowly embed it:

* `JVal` is the type of JSON-decoded Python values (JSON `null` decodes to
  Python `None`, so `JVal.jnull` models both).
* Python attribute/type errors raised by operations such as `.get` on a
  non-dict are modelled with `Except PyErr`; the various `try/except`
  blocks of the source become explicit `match`es on those results.
* External collaborators (HTTP requests via `self.session`, `json.loads`,
  BeautifulSoup queries, the filesystem) are modelled as oracles passed in
  through the `Oracles` structure; each HTTP call additionally records an
  `Event` so that side-effect claims (dedupe invariants) can be stated.

Python dictionaries preserve insertion order, so dicts are embedded as
association lists (`List (String × JVal)`) with first-key lookup, and
`dict.items()` / `dict.values()` iterate in list order.
-/

/-- A JSON-decoded Python value.  `jnull` is Python `None`. -/
inductive JVal where
  | jnull
  | jbool (b : Bool)
  | jnum (n : Int)
  | jstr (s : String)
  | jarr (elems : List JVal)
  | jobj (fields : List (String × JVal))

mutual

/-- Structural (= Python `==`) equality test on embedded values. -/
def JVal.beq : JVal → JVal → Bool
  | .jnull, .jnull => true
  | .jbool a, .jbool b => a == b
  | .jnum a, .jnum b => a == b
  | .jstr a, .jstr b => a == b
  | .jarr xs, .jarr ys => beqArr xs ys
  | .jobj xs, .jobj ys => beqObj xs ys
  | _, _ => false
  termination_by structural a _ => a

def beqArr : List JVal → List JVal → Bool
  | [], [] => true
  | x :: xs, y :: ys => JVal.beq x y && beqArr xs ys
  | _, _ => false
  termination_by structural xs _ => xs

def beqObj : List (String × JVal) → List (String × JVal) → Bool
  | [], [] => true
  | (k, v) :: xs, (k2, v2) :: ys => k == k2 && JVal.beq v v2 && beqObj xs ys
  | _, _ => false
  termination_by structural xs _ => xs

end

mutual

theorem JVal.beq_iff : ∀ a b : JVal, (JVal.beq a b = true) ↔ a = b
  | .jnull, b => by cases b <;> simp [JVal.beq]
  | .jbool a, b => by cases b <;> simp [JVal.beq]
  | .jnum a, b => by cases b <;> simp [JVal.beq]
  | .jstr a, b => by cases b <;> simp [JVal.beq]
  | .jarr xs, b => by
      cases b <;> simp [JVal.beq]
      exact beqArr_iff xs _
  | .jobj xs, b => by
      cases b <;> simp [JVal.beq]
      exact beqObj_iff xs _
  termination_by structural a _ => a

theorem beqArr_iff : ∀ xs ys : List JVal, (beqArr xs ys = true) ↔ xs = ys
  | [], ys => by cases ys <;> simp [beqArr]
  | x :: xs, ys => by
      cases ys with
      | nil => simp [beqArr]
      | cons y ys => simp [beqArr, JVal.beq_iff x y, beqArr_iff xs ys]
  termination_by structural xs _ => xs

theorem beqObj_iff : ∀ xs ys : List (String × JVal), (beqObj xs ys = true) ↔ xs = ys
  | [], ys => by cases ys <;> simp [beqObj]
  | (k, v) :: xs, ys => by
      cases ys with
      | nil => simp [beqObj]
      | cons p ys =>
        cases p with
        | mk k2 v2 => simp [beqObj, JVal.beq_iff v v2, beqObj_iff xs ys, and_assoc]
  termination_by structural xs _ => xs

end

instance : DecidableEq JVal := fun a b => decidable_of_iff _ (JVal.beq_iff a b)

/-- Python truthiness of an embedded value (`if value:`). -/
def JVal.truthy : JVal → Bool
  | .jnull => false
  | .jbool b => b
  | .jnum n => n != 0
  | .jstr s => !s.isEmpty
  | .jarr xs => !xs.isEmpty
  | .jobj fs => !fs.isEmpty

/-- First-key association-list lookup, the embedding of Python dict lookup. -/
def jlookup : List (String × JVal) → String → Option JVal
  | [], _ => none
  | (k, v) :: rest, key => if k == key then some v else jlookup rest key

/-- Whether a value is an embedded Python dict. -/
def JVal.isObj : JVal → Bool
  | .jobj _ => true
  | _ => false

/-- Python values that are unhashable (cannot be set members or dict keys). -/
def JVal.unhashable : JVal → Bool
  | .jarr _ => true
  | .jobj _ => true
  | _ => false

/-- Errors raised by the embedded Python operations.  `httpError` stands for
the `requests` exceptions raised by `raise_for_status()`/transport failures. -/
inductive PyErr where
  | typeError
  | attributeError
  | keyError
  | indexError
  | valueError
  | httpError
deriving DecidableEq

/-- Python `value.get(key, default)`: raises `AttributeError` unless `value`
is a dict; a key that is present returns its stored value even when that
value is `None`. -/
def pyGetD (v : JVal) (key : String) (dflt : JVal) : Except PyErr JVal :=
  match v with
  | .jobj fs => .ok ((jlookup fs key).getD dflt)
  | _ => .error .attributeError

/-- Python `value.get(key)` (default `None`). -/
def pyGet (v : JVal) (key : String) : Except PyErr JVal :=
  pyGetD v key .jnull

/-- Substring occurrence test over character lists (used to model Python's
`sub in s`; the empty pattern is a prefix of everything, matching Python's
`'' in s == True`). -/
def listContainsSub (sub : List Char) : List Char → Bool
  | [] => sub.isEmpty
  | l@(_ :: rest) => sub.isPrefixOf l || listContainsSub sub rest

/-- Python `sub in s` on strings. -/
def strContainsSub (s sub : String) : Bool :=
  listContainsSub sub.data s.data

/-- Python `s.lower()` (ASCII case folding suffices for the titles
involved). -/
def strToLower (s : String) : String :=
  String.mk (s.data.map Char.toLower)

/-- Python `s.replace(pat, repl)` for a one-character pattern, the only
shape used by the source (`cell.replace('"', '""')`). -/
def replaceChar (s : String) (c : Char) (r : String) : String :=
  s.data.foldl (fun acc ch => if ch = c then acc ++ r else acc ++ String.singleton ch) ""

/-- Python `s.split(c)` for a one-character separator. -/
def splitOnChar (c : Char) (s : String) : List String :=
  go s.data []
where
  go : List Char → List Char → List String
    | [], acc => [String.mk acc.reverse]
    | ch :: rest, acc =>
      if ch = c then String.mk acc.reverse :: go rest [] else go rest (ch :: acc)

/-- Python `key in value` for a string key: key test on dicts, substring
test on strings, element test on lists, `TypeError` otherwise. -/
def pyContains (v : JVal) (key : String) : Except PyErr Bool :=
  match v with
  | .jobj fs => .ok (fs.any (fun kv => kv.1 == key))
  | .jstr s => .ok (strContainsSub s key)
  | .jarr xs => .ok (xs.contains (.jstr key))
  | _ => .error .typeError

/-- Python `d[key]` for a string key (subscript): dict lookup raising
`KeyError` on a missing key; `TypeError` on strings/lists (string keys do
not index sequences) and on non-subscriptable values. -/
def pySubscript (v : JVal) (key : String) : Except PyErr JVal :=
  match v with
  | .jobj fs =>
    match jlookup fs key with
    | some x => .ok x
    | none => .error .keyError
  | _ => .error .typeError

/-- Python `key in d` where `key` is an arbitrary value and `d` a dict:
hashes the key (`TypeError` for unhashable keys); JSON-decoded dict keys
are strings, so only string keys can be present. -/
def pyInDict (key d : JVal) : Except PyErr Bool :=
  match d with
  | .jobj fs =>
    if key.unhashable then .error .typeError
    else
      match key with
      | .jstr s => .ok (fs.any (fun kv => kv.1 == s))
      | _ => .ok false
  | .jstr s =>
    match key with
    | .jstr sub => .ok (strContainsSub s sub)
    | _ => .error .typeError
  | .jarr xs => .ok (xs.contains key)
  | _ => .error .typeError

/-- Python `d[key]` with an arbitrary key value: dict lookup (string keys
only, unhashable keys raise `TypeError`), integer indexing of lists with
negative-index wrapping, `TypeError` elsewhere. -/
def pySubscriptKey (d key : JVal) : Except PyErr JVal :=
  match d, key with
  | .jobj fs, .jstr s =>
    match jlookup fs s with
    | some x => .ok x
    | none => .error .keyError
  | .jobj _, .jarr _ => .error .typeError
  | .jobj _, .jobj _ => .error .typeError
  | .jobj _, _ => .error .keyError
  | .jarr xs, .jnum n =>
    let i : Int := if n < 0 then n + xs.length else n
    if h : 0 ≤ i ∧ i.toNat < xs.length then .ok (xs.get ⟨i.toNat, h.2⟩)
    else .error .indexError
  | _, _ => .error .typeError

/-- Python iteration `for x in v`: list elements, dict keys, characters of
a string (as one-character strings), `TypeError` otherwise. -/
def pyIter (v : JVal) : Except PyErr (List JVal) :=
  match v with
  | .jarr xs => .ok xs
  | .jobj fs => .ok (fs.map (fun kv => .jstr kv.1))
  | .jstr s => .ok (s.toList.map (fun c => .jstr (String.singleton c)))
  | _ => .error .typeError

/-- Python `d.items()`. -/
def pyItems (v : JVal) : Except PyErr (List (String × JVal)) :=
  match v with
  | .jobj fs => .ok fs
  | _ => .error .attributeError

/-- Assignment `d[key] = x` on an association list: an existing key keeps
its position and gets the new value, a new key is appended (Python dict
insertion-order semantics). -/
def jSetItem (fs : List (String × JVal)) (key : String) (x : JVal) : List (String × JVal) :=
  if fs.any (fun kv => kv.1 == key) then
    fs.map (fun kv => if kv.1 == key then (kv.1, x) else kv)
  else fs ++ [(key, x)]

/-- Python `d[key] = x`: `TypeError` unless `d` is a dict. -/
def pySetItem (d : JVal) (key : String) (x : JVal) : Except PyErr JVal :=
  match d with
  | .jobj fs => .ok (.jobj (jSetItem fs key x))
  | _ => .error .typeError

/-- Python `a.update(b)` for dicts.  (Python also accepts an iterable of
key/value pairs; no call site of the source passes one, so non-dict
arguments are modelled as the `TypeError` they raise for the shapes that
actually occur.) -/
def pyUpdate (a b : JVal) : Except PyErr JVal :=
  match a with
  | .jobj fs =>
    match b with
    | .jobj gs => .ok (.jobj (gs.foldl (fun acc kv => jSetItem acc kv.1 kv.2) fs))
    | _ => .error .typeError
  | _ => .error .attributeError

/-- Python `repr` of a string: single-quoted unless the string contains a
single quote and no double quote; escapes backslash, newline and the
wrapping quote. -/
def pyReprStr (s : String) : String :=
  let q : Char := if s.data.contains '\'' && !(s.data.contains '"') then '"' else '\''
  let esc := s.toList.foldl (fun acc c =>
    if c = '\\' then acc ++ "\\\\"
    else if c = '\n' then acc ++ "\\n"
    else if c = q then acc ++ "\\" ++ String.singleton q
    else acc ++ String.singleton c) ""
  String.singleton q ++ esc ++ String.singleton q

mutual

/-- Python `repr(value)` (simplified string escaping: backslash, newline
and the wrapping quote, which covers the values appearing here). -/
def pyRepr : JVal → String
  | .jnull => "None"
  | .jbool true => "True"
  | .jbool false => "False"
  | .jnum n => toString n
  | .jstr s => pyReprStr s
  | .jarr xs => "[" ++ pyReprArr xs ++ "]"
  | .jobj fs => "\x7b" ++ pyReprObj fs ++ "\x7d"
  termination_by structural v => v

def pyReprArr : List JVal → String
  | [] => ""
  | [x] => pyRepr x
  | x :: rest => pyRepr x ++ ", " ++ pyReprArr rest
  termination_by structural xs => xs

def pyReprObj : List (String × JVal) → String
  | [] => ""
  | [(k, v)] => pyReprStr k ++ ": " ++ pyRepr v
  | (k, v) :: rest => pyReprStr k ++ ": " ++ pyRepr v ++ ", " ++ pyReprObj rest
  termination_by structural xs => xs

end

/-- Python `str(value)` on an embedded value (`str` of a container falls
back to its `repr`). -/
def pyStr : JVal → String
  | .jnull => "None"
  | .jbool true => "True"
  | .jbool false => "False"
  | .jnum n => toString n
  | .jstr s => s
  | .jarr xs => "[" ++ pyReprArr xs ++ "]"
  | .jobj fs => "\x7b" ++ pyReprObj fs ++ "\x7d"

/-!
## QueryIndex: the recursive statement search

Embedding of `find_statement_recursive` (nested inside
`_extract_sql_from_dashboard_data`, `downloader.py` lines 559-575).  The
Python helper checks `isinstance` before touching a node, so it never
raises.  Dict iteration (`data.values()`) follows insertion order.  A
recursive call's result is kept only when truthy (`if result:`), while a
*matching* node returns its `statement` value unconditionally.
-/

/-- Whether a dict node matches the search: `data.get('id') ==
target_query_id and 'statement' in data`. -/
def isStmtMatch (fs : List (String × JVal)) (target : JVal) : Bool :=
  ((jlookup fs "id").getD .jnull) == target && (jlookup fs "statement").isSome

mutual

/-- `find_statement_recursive(data, target_query_id)`. -/
def findStatementRec (target : JVal) : JVal → Option JVal
  | .jobj fs =>
    if isStmtMatch fs target then jlookup fs "statement"
    else scanKVs target fs
  | .jarr xs => scanArr target xs
  | _ => none
  termination_by structural v => v

/-- The `for value in data.values()` loop: keep the first truthy recursive
result. -/
def scanKVs (target : JVal) : List (String × JVal) → Option JVal
  | [] => none
  | (_, v) :: rest =>
    match findStatementRec target v with
    | some r => if r.truthy then some r else scanKVs target rest
    | none => scanKVs target rest
  termination_by structural l => l

/-- The `for item in data` loop over lists: keep the first truthy recursive
result. -/
def scanArr (target : JVal) : List JVal → Option JVal
  | [] => none
  | v :: rest =>
    match findStatementRec target v with
    | some r => if r.truthy then some r else scanArr target rest
    | none => scanArr target rest
  termination_by structural l => l

end

mutual

/-- Specification-side companion of the search: the `statement` values of
all matching nodes in depth-first, pre-order, values-in-encountered-order
traversal, where a matching node is a leaf (the search never descends into
a node it matched). -/
def collectMatches (target : JVal) : JVal → List JVal
  | .jobj fs =>
    if isStmtMatch fs target then [(jlookup fs "statement").getD .jnull]
    else collectKVs target fs
  | .jarr xs => collectArr target xs
  | _ => []
  termination_by structural v => v

def collectKVs (target : JVal) : List (String × JVal) → List JVal
  | [] => []
  | (_, v) :: rest => collectMatches target v ++ collectKVs target rest
  termination_by structural l => l

def collectArr (target : JVal) : List JVal → List JVal
  | [] => []
  | v :: rest => collectMatches target v ++ collectArr target rest
  termination_by structural l => l

end

/-- The statement value of the first matching node in depth-first order,
with no truthiness filtering: the literal reading of the specification of
the recursive statement search. -/
def firstMatchStatement (target blob : JVal) : Option JVal :=
  (collectMatches target blob).head?

/-- `_extract_sql_from_dashboard_data` (lines 551-590), reduced to its
observable outcome: whether a (truthy) SQL statement was found in the blob
and hence written to `{file_identifier}.sql`.  The writing itself is a
filesystem effect outside the core. -/
def extractSqlFromDashboardData (queryId dashboardData : JVal) : Bool :=
  if !queryId.truthy then false
  else
    match findStatementRec queryId dashboardData with
    | some r => r.truthy
    | none => false

/-!
## CSV serialization (`_fetch_csv_data_from_compass`, lines 1246-1292)
-/

/-- Per-cell CSV emission: a `str` cell containing a comma, double quote or
newline is wrapped in double quotes with embedded quotes doubled; every
other cell is emitted as `str(cell)` unquoted. -/
def escapeCsvCell (cell : JVal) : String :=
  match cell with
  | .jstr s =>
    if s.data.contains ',' || s.data.contains '"' || s.data.contains '\n' then
      "\"" ++ replaceChar s '"' "\"\"" ++ "\""
    else s
  | c => pyStr c

/-- The accumulation of a Python `for` loop that can raise: map each
element, propagating the first raised error. -/
def exceptMapM (f : α → Except PyErr β) : List α → Except PyErr (List β)
  | [] => .ok []
  | x :: rest => do
    let y ← f x
    let ys ← exceptMapM f rest
    pure (y :: ys)

/-- Reduction of an Except bind on a success value. -/
@[simp] theorem exceptBindOk (x : α) (f : α → Except PyErr β) :
    (Except.ok x >>= f : Except PyErr β) = f x := rfl

/-- Reduction of an Except bind on a raised error. -/
@[simp] theorem exceptBindErr (e : PyErr) (f : α → Except PyErr β) :
    (Except.error e >>= f : Except PyErr β) = Except.error e := rfl

/-- Reduction of an Except map on a success value. -/
@[simp] theorem exceptMapOk (x : α) (f : α → β) :
    (f <$> (Except.ok x : Except PyErr α)) = Except.ok (f x) := rfl

/-- Python `','.join(iterable)`: every element must be a string
(`TypeError` otherwise). -/
def pyJoinComma (v : JVal) : Except PyErr String := do
  let items ← pyIter v
  let strs ← exceptMapM (fun c =>
    match c with
    | JVal.jstr s => Except.ok s
    | _ => Except.error PyErr.typeError) items
  pure (String.intercalate "," strs)

/-- One emitted CSV data row (lines 1266-1275): escape each cell of the
iterated row and join with commas. -/
def csvRowLine (row : JVal) : Except PyErr String := do
  let cells ← pyIter row
  pure (String.intercalate "," (cells.map escapeCsvCell))

/-- The CSV text built by `_fetch_csv_data_from_compass` from the decoded
results response: header row of column names followed by one line per data
row, all joined with newlines.  Mirrors the `try` body after the
`if columns and csv_data:` guard; any `TypeError` raised inside it
(non-string column names, non-iterable rows) is caught by the function's
`except` and yields no file, hence `Except` here. -/
def compassCsvContent (resp : JVal) : Except PyErr String := do
  let columns ← pyGetD resp "columns" (.jarr [])
  let csvData ← pyGetD resp "csvData" (.jarr [])
  if columns.truthy && csvData.truthy then do
    let header ← pyJoinComma columns
    let rows ← pyIter csvData
    let lines ← exceptMapM csvRowLine rows
    pure (String.intercalate "\n" (header :: lines))
  else Except.error PyErr.valueError

/-!
## External collaborators and recorded side effects
-/

/-- One observable external call made during visualization processing. -/
inductive Event where
  | vizApiFetch (visId : JVal)
  | inlineSqlSearch (queryId : JVal)
  | studioSqlFetch (queryId : JVal)
  | legacyCsvFetch (queryId : JVal) (endpoint : Nat)
  | compassCsvFetch (compassId queryId : JVal)
deriving DecidableEq

/-- The external collaborators (HTTP client, HTML/JSON decoding of pages,
soup queries): pure oracles describing their responses for one run. -/
structure Oracles where
  /-- `_fetch_page`: the page markup, `none` = transport/HTTP failure. -/
  fetchPage : Option String := some ""
  /-- Per `__remixContext` script region: its decoded JSON document; `none`
  stands for a script with no string, no marker, or a JSON decode failure
  (all of which make `_extract_dashboard_data` skip the region). -/
  scripts : List (Option JVal) := []
  /-- `soup.find('title')` text. -/
  soupTitle : Option String := none
  /-- First match of the title selectors (`h1`, `.dashboard-title`, ...). -/
  soupTitleSel : Option String := none
  /-- First match of the description selectors / meta content. -/
  soupDesc : Option String := none
  /-- Texts of elements with a `tag`-like class. -/
  soupTags : List String := []
  /-- Hrefs of `/queries/` links found in the page. -/
  queryLinks : List String := []
  /-- `GET api/visualizations/{vis_id}` decoded JSON; `none` = exception,
  non-success status or JSON decode failure. -/
  vizApi : JVal → Option JVal := fun _ => none
  /-- `_fetch_sql_query` on the studio URL of a query id: the extracted SQL
  text when a selector matched and contained `select`/`with`. -/
  studioSql : JVal → Option String := fun _ => none
  /-- `_try_fetch_csv_data` endpoint `n` for a query id: whether the
  response was 200 with a `text/csv` content type. -/
  legacyCsv : JVal → Nat → Bool := fun _ _ => false
  /-- `GET api/query-runs/{compass_id}/results` decoded JSON; `none` =
  exception or non-200 status. -/
  compassApi : JVal → Option JVal := fun _ => none

/-- The chart-config dict built by `_fetch_chart_config_from_api` (lines
526-542) from a decoded API response; the field values are computed in the
dict-literal order of the source, so the first failing access raises. -/
def buildChartConfig (vizData : JVal) : Except PyErr JVal :=
  match pyGetD vizData "config" (.jobj []) with
  | .error e => .error e
  | .ok config =>
  match pyGetD config "inputs" (.jobj []) with
  | .error e => .error e
  | .ok inputs =>
  match pyGetD inputs "type" (.jstr "unknown") with
  | .error e => .error e
  | .ok ty =>
  match pyGetD config "options" (.jobj []) with
  | .error e => .error e
  | .ok options =>
  match pyGetD options "title" (.jobj []) with
  | .error e => .error e
  | .ok titleObj =>
  match pyGetD titleObj "text" (.jstr "") with
  | .error e => .error e
  | .ok title =>
  match pyGetD options "subtitle" (.jobj []) with
  | .error e => .error e
  | .ok subObj =>
  match pyGetD subObj "text" (.jstr "") with
  | .error e => .error e
  | .ok subtitle =>
  match pyGetD options "xAxis" (.jobj []) with
  | .error e => .error e
  | .ok xAxis =>
  match pyGetD options "yAxis" (.jobj []) with
  | .error e => .error e
  | .ok yAxis =>
  match pyGetD options "colors" (.jarr []) with
  | .error e => .error e
  | .ok colors =>
  match pyGetD options "plotOptions" (.jobj []) with
  | .error e => .error e
  | .ok plotOptions =>
  match pyGet vizData "version" with
  | .error e => .error e
  | .ok apiVersion =>
  match pyGet vizData "createdAt" with
  | .error e => .error e
  | .ok createdAt =>
  match pyGet vizData "updatedAt" with
  | .error e => .error e
  | .ok updatedAt =>
  .ok (.jobj [("type", ty), ("title", title), ("subtitle", subtitle), ("xAxis", xAxis),
    ("yAxis", yAxis), ("colors", colors), ("plotOptions", plotOptions), ("inputs", inputs),
    ("options", options), ("api_version", apiVersion), ("created_at", createdAt),
    ("updated_at", updatedAt), ("_full_api_response", vizData)])

/-- `_fetch_chart_config_from_api` (lines 512-549): no call at all for a
falsy `vis_id`; otherwise one API call whose failure (exception, bad
status, undecodable/mis-shaped body) is caught and yields `{}`. -/
def fetchChartConfigFromApi (O : Oracles) (visId : JVal) : List Event × JVal :=
  if !visId.truthy then ([], .jobj [])
  else
    ([.vizApiFetch visId],
     match O.vizApi visId with
     | none => .jobj []
     | some vizData =>
       match buildChartConfig vizData with
       | .ok cfg => cfg
       | .error _ => .jobj [])

/-- The chart-type keyword fallback (lines 341-355): substring match
against the lower-cased content title. -/
def chartTypeFromTitle (title : String) : JVal :=
  .jstr (
    if strContainsSub title "bar" then "bar"
    else if strContainsSub title "line" then "line"
    else if strContainsSub title "pie" then "pie"
    else if strContainsSub title "histogram" then "histogram"
    else if strContainsSub title "scatter" then "scatter"
    else if strContainsSub title "table" then "table"
    else "chart")

/-- The raising body of `_extract_chart_type`.  The `or`-chain over
`chartType`/`type`/`chart_type` keeps the first truthy value; the keyword
fallback lower-cases `viz_content.get('title', '')` (`AttributeError` on a
non-string title). -/
def extractChartTypeE (vizContent dashboardData : JVal) : Except PyErr JVal :=
  match pyGet vizContent "visId" with
  | .error e => .error e
  | .ok visId =>
  if !visId.truthy then .ok (.jstr "unknown") else
  match pyContains dashboardData "publishedConfig" with
  | .error e => .error e
  | .ok hasPub =>
  match pyGetD dashboardData (if hasPub then "publishedConfig" else "draftConfig")
      (.jobj []) with
  | .error e => .error e
  | .ok config =>
  match pyGetD config "visualizations" (.jobj []) with
  | .error e => .error e
  | .ok vizs =>
  match pyInDict visId vizs with
  | .error e => .error e
  | .ok inMap =>
  match (if inMap then
           (match pySubscriptKey vizs visId with
            | Except.error e => Except.error e
            | Except.ok vizDef =>
              (match pyGet vizDef "chartType", pyGet vizDef "type",
                     pyGet vizDef "chart_type" with
               | Except.ok ct1, Except.ok ct2, Except.ok ct3 =>
                 Except.ok (if ct1.truthy then some ct1
                   else if ct2.truthy then some ct2
                   else if ct3.truthy then some ct3 else none)
               | Except.error e, _, _ => Except.error e
               | _, Except.error e, _ => Except.error e
               | _, _, Except.error e => Except.error e))
         else Except.ok none) with
  | .error e => .error e
  | .ok (some ct) => .ok ct
  | .ok none =>
  match pyGetD vizContent "title" (.jstr "") with
  | .error e => .error e
  | .ok titleVal =>
  match titleVal with
  | .jstr s => .ok (chartTypeFromTitle (strToLower s))
  | _ => .error .attributeError

/-- `_extract_chart_type` (lines 319-359): the body above with its
enclosing `try/except` returning `'unknown'`. -/
def extractChartType (vizContent dashboardData : JVal) : JVal :=
  match extractChartTypeE vizContent dashboardData with
  | .ok v => v
  | .error _ => .jstr "unknown"

/-- The generic fallback label of `_extract_chart_title` (line 395). -/
def fallbackTitle (vizContent : JVal) : Except PyErr JVal :=
  match pyGetD vizContent "id" (.jstr "Unknown") with
  | .error e => .error e
  | .ok idv => .ok (.jstr ("Chart " ++ pyStr idv))

/-- The raising body of `_extract_chart_title`. -/
def extractChartTitleE (vizContent cellData dashboardData : JVal) : Except PyErr JVal :=
  match pyGet vizContent "title" with
  | .error e => .error e
  | .ok t =>
  if t.truthy then .ok t else
  match pyGet cellData "title" with
  | .error e => .error e
  | .ok t2 =>
  if t2.truthy then .ok t2 else
  match pyGet vizContent "displayName" with
  | .error e => .error e
  | .ok dn =>
  if dn.truthy then .ok dn else
  match pyGet vizContent "label" with
  | .error e => .error e
  | .ok lb =>
  if lb.truthy then .ok lb else
  match pyGet vizContent "visId" with
  | .error e => .error e
  | .ok visId =>
  if !visId.truthy then fallbackTitle vizContent else
  match pyContains dashboardData "publishedConfig" with
  | .error e => .error e
  | .ok hasPub =>
  match pyGetD dashboardData (if hasPub then "publishedConfig" else "draftConfig")
      (.jobj []) with
  | .error e => .error e
  | .ok config =>
  match pyGetD config "visualizations" (.jobj []) with
  | .error e => .error e
  | .ok vizs =>
  match pyInDict visId vizs with
  | .error e => .error e
  | .ok inMap =>
  if !inMap then fallbackTitle vizContent else
  match pySubscriptKey vizs visId with
  | .error e => .error e
  | .ok vizDef =>
  match pyGet vizDef "title" with
  | .error e => .error e
  | .ok vt =>
  if vt.truthy then .ok vt else
  match pyGet vizDef "displayName" with
  | .error e => .error e
  | .ok vdn =>
  if vdn.truthy then .ok vdn else
  fallbackTitle vizContent

/-- `_extract_chart_title` (lines 361-399): content title, cell (layout)
title, content display-name, content label, visualization-definition title
then display-name, generic fallback; any raised error is caught and yields
`"Untitled Chart"`. -/
def extractChartTitle (vizContent cellData dashboardData : JVal) : JVal :=
  match extractChartTitleE vizContent cellData dashboardData with
  | .ok v => v
  | .error _ => .jstr "Untitled Chart"

/-- `_extract_chart_title_with_api` (lines 401-414): prefer the fetched
config's (truthy) title, fall back to `_extract_chart_title` otherwise or
on any error. -/
def extractChartTitleWithApi (vizContent cellData dashboardData chartConfig : JVal) : JVal :=
  match pyGetD chartConfig "title" (.jstr "") with
  | .ok apiTitle =>
    if apiTitle.truthy then apiTitle
    else extractChartTitle vizContent cellData dashboardData
  | .error _ => extractChartTitle vizContent cellData dashboardData

/-- `_extract_axes_info` (lines 447-477).  `axes_info` is mutated in
place, and the enclosing `except` returns whatever has been built when an
error is raised, so each failing step returns the current state. -/
def extractAxesInfo (vizContent dashboardData : JVal) : JVal :=
  let a0 : JVal := .jobj []
  match pyContains vizContent "axes" with
  | .error _ => a0
  | .ok hasAxes =>
    match (if hasAxes then pySubscript vizContent "axes" else .ok a0) with
    | .error _ => a0
    | .ok a1 =>
      match pyGet vizContent "visId" with
      | .error _ => a1
      | .ok visId =>
        if !visId.truthy then a1
        else
          match (do
            let hasPub ← pyContains dashboardData "publishedConfig"
            let configKey := if hasPub then "publishedConfig" else "draftConfig"
            let config ← pyGetD dashboardData configKey (.jobj [])
            let vizs ← pyGetD config "visualizations" (.jobj [])
            let inMap ← pyInDict visId vizs
            if inMap then do
              let vizDef ← pySubscriptKey vizs visId
              pure (some vizDef)
            else pure none) with
          | .error _ => a1
          | .ok none => a1
          | .ok (some vizDef) =>
            match pyContains vizDef "axes" with
            | .error _ => a1
            | .ok hasVAxes =>
              match (if hasVAxes then do
                       let vdAxes ← pySubscript vizDef "axes"
                       pyUpdate a1 vdAxes
                     else .ok a1) with
              | .error _ => a1
              | .ok a2 =>
                match pyContains vizDef "xAxis" with
                | .error _ => a2
                | .ok hasX =>
                  match (if hasX then do
                           let x ← pySubscript vizDef "xAxis"
                           pySetItem a2 "xAxis" x
                         else .ok a2) with
                  | .error _ => a2
                  | .ok a3 =>
                    match pyContains vizDef "yAxis" with
                    | .error _ => a3
                    | .ok hasY =>
                      match (if hasY then do
                               let y ← pySubscript vizDef "yAxis"
                               pySetItem a3 "yAxis" y
                             else .ok a3) with
                      | .error _ => a3
                      | .ok a4 => a4

/-- `_extract_axes_info_with_api` (lines 416-445): start from the fetched
config's truthy `xAxis`/`yAxis`/`subtitle`, then fill still-missing keys
from `_extract_axes_info`; any error falls back to `_extract_axes_info`
alone. -/
def extractAxesInfoWithApi (vizContent dashboardData chartConfig : JVal) : JVal :=
  match (show Except PyErr JVal from do
    let apiX ← pyGetD chartConfig "xAxis" (.jobj [])
    let apiY ← pyGetD chartConfig "yAxis" (.jobj [])
    let fs1 := if apiX.truthy then jSetItem [] "xAxis" apiX else []
    let fs2 := if apiY.truthy then jSetItem fs1 "yAxis" apiY else fs1
    let subtitle ← pyGetD chartConfig "subtitle" (.jstr "")
    let fs3 := if subtitle.truthy then jSetItem fs2 "subtitle" subtitle else fs2
    let orig := extractAxesInfo vizContent dashboardData
    let origItems ← pyItems orig
    let final := origItems.foldl (fun acc kv =>
      if acc.any (fun kv2 => kv2.1 == kv.1) then acc else acc ++ [(kv.1, kv.2)]) fs3
    pure (JVal.jobj final)) with
  | .ok v => v
  | .error _ => extractAxesInfo vizContent dashboardData

/-- `_find_compass_id_for_query` (lines 1224-1244): scan the blob's
`queries` list for the query id and return its first truthy
`lastSuccessfulCompassId`-or-`lastExecutedCompassId`; `None` (`jnull`) when
absent, falsy, or on any caught error. -/
def findCompassIdForQuery (queryId dashboardData : JVal) : JVal :=
  if !queryId.truthy then .jnull
  else
    match (do
      let queries ← pyGetD dashboardData "queries" (.jarr [])
      let items ← pyIter queries
      items.foldlM (fun acc q => do
        match acc with
        | some c => pure (some c)
        | none =>
          let idv ← pyGet q "id"
          if idv == queryId then do
            let c1 ← pyGet q "lastSuccessfulCompassId"
            let c ← if c1.truthy then pure c1 else pyGet q "lastExecutedCompassId"
            pure (if c.truthy then some c else none)
          else pure none) (none : Option JVal)) with
    | .ok (some c) => c
    | .ok none => .jnull
    | .error _ => .jnull

/-- `_get_query_metadata` (lines 1294-1317): the three execution
timestamps of the first `queries` record with the given id; all-`None` for
unknown ids, falsy ids, or on any caught error. -/
def getQueryMetadata (queryId dashboardData : JVal) : JVal :=
  let empty : JVal := .jobj [("last_executed", .jnull),
    ("last_successful_execution", .jnull), ("result_last_accessed", .jnull)]
  if !queryId.truthy then empty
  else
    match (do
      let queries ← pyGetD dashboardData "queries" (.jarr [])
      let items ← pyIter queries
      items.foldlM (fun acc q => do
        match acc with
        | some m => pure (some m)
        | none =>
          let idv ← pyGet q "id"
          if idv == queryId then do
            let a ← pyGet q "lastExecutedAt"
            let b ← pyGet q "lastSuccessfulExecutionAt"
            let c ← pyGet q "resultLastAccessedAt"
            pure (some (JVal.jobj [("last_executed", a),
              ("last_successful_execution", b), ("result_last_accessed", c)]))
          else pure none) (none : Option JVal)) with
    | .ok (some m) => m
    | .ok none => empty
    | .error _ => empty

/-- `_try_fetch_csv_data` (lines 615-638): try the two legacy CSV
endpoints in order, stopping at the first 200-with-csv response. -/
def tryFetchCsvData (O : Oracles) (queryId : JVal) : List Event × Bool :=
  if O.legacyCsv queryId 1 then ([.legacyCsvFetch queryId 1], true)
  else if O.legacyCsv queryId 2 then
    ([.legacyCsvFetch queryId 1, .legacyCsvFetch queryId 2], true)
  else ([.legacyCsvFetch queryId 1, .legacyCsvFetch queryId 2], false)

/-- `_extract_sql_for_query` (lines 592-613): fetch the studio query page;
on truthy SQL text save it and return `True`, otherwise additionally try
the legacy CSV endpoints and return `False`. -/
def extractSqlForQuery (O : Oracles) (queryId : JVal) : List Event × Bool :=
  match O.studioSql queryId with
  | some _ => ([.studioSqlFetch queryId], true)
  | none =>
    let (evs, _) := tryFetchCsvData O queryId
    (Event.studioSqlFetch queryId :: evs, false)

/-- `_fetch_csv_data_from_compass` (lines 1246-1292) as an event plus its
success outcome (CSV file written). -/
def fetchCsvDataFromCompass (O : Oracles) (compassId queryId : JVal) : List Event × Bool :=
  ([.compassCsvFetch compassId queryId],
   match O.compassApi compassId with
   | none => false
   | some resp =>
     match compassCsvContent resp with
     | .ok _ => true
     | .error _ => false)

/-- The dedupe-guarded per-query block of
`_process_dashboard_visualizations` (lines 296-309): inline statement
search; on failure the studio SQL fetch fallback (with its nested legacy
CSV attempts); then, when a compass id is available, the result fetch. -/
def processQueryArtifacts (O : Oracles) (dashboardData queryId compassId : JVal) : List Event :=
  let sqlExtracted := extractSqlFromDashboardData queryId dashboardData
  let fallbackEvs := if sqlExtracted then [] else (extractSqlForQuery O queryId).1
  let compassEvs :=
    if compassId.truthy then (fetchCsvDataFromCompass O compassId queryId).1 else []
  Event.inlineSqlSearch queryId :: (fallbackEvs ++ compassEvs)

/-!
## The visualization-processing loop (`_process_dashboard_visualizations`,
lines 219-317)
-/

/-- One emitted visualization descriptor (the `viz_info` dict, lines
265-276; its `id` string is `chart-` followed by the chart index). -/
structure Viz where
  chartIdx : Nat
  cellId : String
  title : JVal
  chartType : JVal
  visId : JVal
  queryId : JVal
  compassId : JVal
  queryMetadata : JVal
  axes : JVal
  chartConfig : JVal
deriving DecidableEq

/-- Per-cell record of one loop iteration: the cell id, whether the cell's
`variant` was `visualization`, the external calls it performed, and the
descriptor it appended (if it completed). -/
structure CellOut where
  cellId : String
  isViz : Bool
  events : List Event
  viz : Option Viz
deriving DecidableEq

/-- The body of one `visualization`-variant iteration (lines 240-311),
given the already-incremented `chart_count`.  Returns the events emitted
before any raise, and either the raised error or the descriptor plus the
updated `processed_queries` list. -/
def processVizCell (O : Oracles) (dashboardData contents : JVal) (cellId : String)
    (cellData : JVal) (processed : List JVal) (chartCount : Nat) :
    List Event × Except PyErr (Viz × List JVal) :=
  match pyGetD contents cellId (.jobj []) with
  | .error e => ([], .error e)
  | .ok vizContent =>
    let chartType := extractChartType vizContent dashboardData
    match pyGet vizContent "queryId" with
    | .error e => ([], .error e)
    | .ok queryId =>
      let compassId := findCompassIdForQuery queryId dashboardData
      let qMeta := getQueryMetadata queryId dashboardData
      match pyGet vizContent "visId" with
      | .error e => ([], .error e)
      | .ok visId =>
        let (fetchEvs, chartConfig) := fetchChartConfigFromApi O visId
        let title := extractChartTitleWithApi vizContent cellData dashboardData chartConfig
        let axes := extractAxesInfoWithApi vizContent dashboardData chartConfig
        match pyGetD chartConfig "type" chartType with
        | .error e => (fetchEvs, .error e)
        | .ok finalType =>
          let viz : Viz := ⟨chartCount, cellId, title, finalType, visId, queryId,
            compassId, qMeta, axes, chartConfig⟩
          if queryId.truthy then
            if queryId.unhashable then (fetchEvs, .error .typeError)
            else if processed.contains queryId then (fetchEvs, .ok (viz, processed))
            else
              (fetchEvs ++ processQueryArtifacts O dashboardData queryId compassId,
               .ok (viz, processed ++ [queryId]))
          else (fetchEvs, .ok (viz, processed))

/-- The `for cell_id, cell_data in cells.items()` loop (lines 238-312).  A
raised error aborts the remaining iterations (it is caught by the
function-level `try`); the cells processed so far, with their events, are
kept. -/
def runCells (O : Oracles) (dashboardData contents : JVal) :
    List (String × JVal) → List JVal → Nat → List CellOut × Option PyErr
  | [], _, _ => ([], none)
  | (cellId, cellData) :: rest, processed, chartCount =>
    match pyGet cellData "variant" with
    | .error e => ([], some e)
    | .ok variant =>
      if variant == JVal.jstr "visualization" then
        match processVizCell O dashboardData contents cellId cellData processed
            (chartCount + 1) with
        | (evs, .error e) => ([⟨cellId, true, evs, none⟩], some e)
        | (evs, .ok (viz, processed')) =>
          let (outs, err) := runCells O dashboardData contents rest processed' (chartCount + 1)
          (⟨cellId, true, evs, some viz⟩ :: outs, err)
      else
        let (outs, err) := runCells O dashboardData contents rest processed chartCount
        (⟨cellId, false, [], none⟩ :: outs, err)

/-- Result of `_process_dashboard_visualizations`: the per-cell records in
iteration order, plus the error caught by the function-level `except`, if
any (the Python function swallows it and returns the list built so far;
we keep it observable for specification purposes). -/
structure ProcOut where
  cells : List CellOut
  err : Option PyErr
deriving DecidableEq

/-- The returned `visualizations` list. -/
def ProcOut.vizs (p : ProcOut) : List Viz :=
  p.cells.filterMap (fun c => c.viz)

/-- All external calls performed during the pass, in order. -/
def ProcOut.events (p : ProcOut) : List Event :=
  (p.cells.map (fun c => c.events)).flatten

/-- The configuration-selection prefix of the function (lines 226-236):
`config_key` is `publishedConfig` exactly when that key is present
(`'publishedConfig' in dashboard_data`), regardless of its value;
otherwise `draftConfig`.  Returns the `contents` and `cells` mappings when
a config is present. -/
def selectConfigCells (dashboardData : JVal) :
    Except PyErr (Option (JVal × List (String × JVal))) := do
  let hasPub ← pyContains dashboardData "publishedConfig"
  let configKey := if hasPub then "publishedConfig" else "draftConfig"
  let hasKey ← pyContains dashboardData configKey
  if hasKey then do
    let config ← pySubscript dashboardData configKey
    let contents ← pyGetD config "contents" (.jobj [])
    let cellsV ← pyGetD config "cells" (.jobj [])
    let items ← pyItems cellsV
    pure (some (contents, items))
  else pure none

/-- `_process_dashboard_visualizations` (lines 219-317). -/
def processDashboardVisualizations (O : Oracles) (dashboardData : JVal) : ProcOut :=
  match selectConfigCells dashboardData with
  | .error e => ⟨[], some e⟩
  | .ok none => ⟨[], none⟩
  | .ok (some (contents, items)) =>
    let (outs, err) := runCells O dashboardData contents items [] 0
    ⟨outs, err⟩

/-- The number of `visualization`-variant cells of the blob's selected
configuration (`N` in the chart-index claim), computed independently of
the loop. -/
def vizCellCount (dashboardData : JVal) : Nat :=
  match selectConfigCells dashboardData with
  | .ok (some (_, items)) =>
    items.countP (fun kv =>
      match pyGet kv.2 "variant" with
      | .ok v => v == JVal.jstr "visualization"
      | .error _ => false)
  | _ => 0

/-!
## StateLocator, metadata extraction and the `download` entry point
-/

/-- Navigation of one decoded `__remixContext` document (lines 176-181):
descend `state.loaderData.<any key>.dashboard`.  The enclosing `except`
only catches `json.JSONDecodeError` and `KeyError`, so type/attribute
errors raised here propagate. -/
def navigateRemix (data : JVal) : Except PyErr (Option JVal) := do
  let hasState ← pyContains data "state"
  if hasState then do
    let st ← pySubscript data "state"
    let hasLoader ← pyContains st "loaderData"
    if hasLoader then do
      let ld ← pySubscript st "loaderData"
      let vals ← (match ld with
        | .jobj fs => Except.ok (fs.map (fun kv => kv.2))
        | _ => Except.error PyErr.attributeError)
      pure (vals.foldl (fun acc v =>
        match acc with
        | some d => some d
        | none =>
          match v with
          | .jobj fs =>
            if fs.any (fun kv => kv.1 == "dashboard") then jlookup fs "dashboard"
            else none
          | _ => none) none)
    else pure none
  else pure none

/-- `_extract_dashboard_data` (lines 157-187): first dashboard object
found under any parsed script region's `state.loaderData`. -/
def extractDashboardData (O : Oracles) : Except PyErr (Option JVal) :=
  go O.scripts
where
  go : List (Option JVal) → Except PyErr (Option JVal)
    | [] => .ok none
    | none :: rest => go rest
    | some doc :: rest => do
      let r ← navigateRemix doc
      match r with
      | some d => pure (some d)
      | none => go rest

/-- The `metadata` dict built by `_extract_metadata` (lines 83-155). -/
structure Metadata where
  url : String
  title : JVal
  author : JVal
  abstract : JVal
  tags : List String

/-- `_extract_metadata` (lines 83-155).  This function has no `try`, so
every error raised while reading the dashboard object propagates to
`download`. -/
def extractMetadata (O : Oracles) (url : String) : Except PyErr Metadata := do
  let dd ← extractDashboardData O
  let (title1, abstract1) ←
    match dd with
    | some d =>
      if d.truthy then do
        let hasT ← pyContains d "title"
        let t0 ← if hasT then pySubscript d "title" else pure JVal.jnull
        let hasPub ← pyContains d "publishedConfig"
        let configKey := if hasPub then "publishedConfig" else "draftConfig"
        let hasKey ← pyContains d configKey
        if hasKey then do
          let config ← pySubscript d configKey
          let contents ← pyGetD config "contents" (.jobj [])
          let rootHeader ← pyGetD contents "root-header" (.jobj [])
          let hasDT ← pyContains rootHeader "dashboardTitle"
          let t1 ← if hasDT then pySubscript rootHeader "dashboardTitle" else pure t0
          let hasDD ← pyContains rootHeader "dashboardDescription"
          let a1 ← if hasDD then pySubscript rootHeader "dashboardDescription"
                   else pure JVal.jnull
          pure (t1, a1)
        else pure (t0, JVal.jnull)
      else pure (JVal.jnull, JVal.jnull)
    | none => pure ((JVal.jnull : JVal), (JVal.jnull : JVal))
  let title2 :=
    if title1.truthy then title1
    else
      match O.soupTitleSel with
      | some s => JVal.jstr s
      | none =>
        match O.soupTitle with
        | some s => JVal.jstr s
        | none => title1
  let abstract2 :=
    if abstract1.truthy then abstract1
    else
      match O.soupDesc with
      | some s => JVal.jstr s
      | none => abstract1
  pure ⟨url, title2, JVal.jnull, abstract2,
    O.soupTags.filter (fun t => "#".data.isPrefixOf t.data)⟩

/-- `_extract_visualizations` (lines 189-217): run the processing pass
when a truthy dashboard object was found (its internal errors are
swallowed there); the trailing `/queries/`-link fallback loop catches its
own errors and writes files only, so it raises nothing. -/
def extractVisualizations (O : Oracles) : Except PyErr ProcOut := do
  let dd ← extractDashboardData O
  match dd with
  | some d => pure (if d.truthy then processDashboardVisualizations O d else ⟨[], none⟩)
  | none => pure ⟨[], none⟩

/-- Python values accepting the slice `value[:8]` (line 923 of
`_generate_html`). -/
def JVal.sliceable : JVal → Bool
  | .jstr _ => true
  | .jarr _ => true
  | _ => false

/-- The raise behaviour of `_generate_json_artifact` (lines 758-819): the
only failing operations in the modelled core are hashing a truthy
unhashable `query_id` (`set(...)` on line 772, `in` on line 783). -/
def generateJsonArtifact (vizs : List Viz) : Except PyErr Unit :=
  if vizs.any (fun v => v.queryId.truthy && v.queryId.unhashable) then .error .typeError
  else .ok ()

/-- The raise behaviour of `_generate_html` (lines 821-949): line 916
reads `viz.get('query_id', '')` — the key is always present in `viz_info`,
possibly holding `None` — and line 923 slices it with `[:8]`, a
`TypeError` for every non-sliceable value (in particular `None`). -/
def generateHtml (vizs : List Viz) : Except PyErr Unit :=
  if vizs.any (fun v => !v.queryId.sliceable) then .error .typeError
  else .ok ()

/-- Python `url.rstrip('/')`. -/
def rstripSlash (url : String) : String :=
  String.mk ((url.data.reverse.dropWhile (fun c => c = '/')).reverse)

/-- `_extract_slug` (lines 69-74). -/
def extractSlug (url : String) : Option String :=
  let parts := splitOnChar '/' (rstripSlash url)
  if parts.length ≥ 2 then parts.getLast? else none

/-- Everything `download` hands back / leaves behind that we model. -/
structure DownloadResult where
  metadata : Metadata
  proc : ProcOut

/-- `download` (lines 27-67): slug extraction (a falsy slug raises
`ValueError`), page fetch (transport/HTTP failures propagate), metadata
extraction, visualization processing, and the three artifact generators in
source order.  Directory creation and file writes are filesystem effects
outside the modelled core and raise nothing relevant. -/
def download (O : Oracles) (url : String) : Except PyErr DownloadResult := do
  let _slug ← match extractSlug url with
    | some s => if s.isEmpty then Except.error PyErr.valueError else pure s
    | none => Except.error PyErr.valueError
  let _page ← match O.fetchPage with
    | some h => pure h
    | none => Except.error PyErr.httpError
  let md ← extractMetadata O url
  let proc ← extractVisualizations O
  let _ ← generateJsonArtifact proc.vizs
  let _ ← generateHtml proc.vizs
  pure ⟨md, proc⟩

/-!
## Theorems

### C5 - the recursive statement search
-/

/-- Keep an optional search result only when truthy, the effect of the
callers' `if result:` filter. -/
def toTruthy : Option JVal → Option JVal
  | some r => if r.truthy then some r else none
  | none => none

/-- `find?` only returns elements satisfying its predicate, so the
truthiness filter is a no-op on its result. -/
theorem toTruthy_find? (l : List JVal) :
    toTruthy (l.find? JVal.truthy) = l.find? JVal.truthy := by
  cases h : l.find? JVal.truthy with
  | none => simp [toTruthy]
  | some r => simp [toTruthy, List.find?_some h]

mutual

theorem findStatement_toTruthy (t : JVal) : ∀ v : JVal,
    toTruthy (findStatementRec t v) = (collectMatches t v).find? JVal.truthy
  | .jnull => by simp [findStatementRec, collectMatches, toTruthy]
  | .jbool b => by simp [findStatementRec, collectMatches, toTruthy]
  | .jnum n => by simp [findStatementRec, collectMatches, toTruthy]
  | .jstr s => by simp [findStatementRec, collectMatches, toTruthy]
  | .jarr xs => by
      show toTruthy (scanArr t xs) = (collectArr t xs).find? JVal.truthy
      rw [scanArr_eq_find t xs]
      exact toTruthy_find? _
  | .jobj fs => by
      by_cases h : isStmtMatch fs t = true
      · simp only [findStatementRec, collectMatches, h, if_true]
        cases hs : jlookup fs "statement" with
        | none => simp [isStmtMatch, hs] at h
        | some r =>
          by_cases ht : r.truthy = true <;>
            simp [toTruthy, ht, List.find?]
      · rw [show findStatementRec t (.jobj fs) = scanKVs t fs by
              simp [findStatementRec, h],
            show collectMatches t (.jobj fs) = collectKVs t fs by
              simp [collectMatches, h],
            scanKVs_eq_find t fs]
        exact toTruthy_find? _
  termination_by structural v => v

theorem scanKVs_eq_find (t : JVal) : ∀ fs : List (String × JVal),
    scanKVs t fs = (collectKVs t fs).find? JVal.truthy
  | [] => by simp [scanKVs, collectKVs]
  | (k, v) :: rest => by
      have hA := findStatement_toTruthy t v
      have hB := scanKVs_eq_find t rest
      simp only [scanKVs, collectKVs, List.find?_append, ← hA, ← hB]
      cases h : findStatementRec t v with
      | none => simp [toTruthy]
      | some r =>
        by_cases ht : r.truthy = true <;> simp [toTruthy, ht]
  termination_by structural fs => fs

theorem scanArr_eq_find (t : JVal) : ∀ xs : List JVal,
    scanArr t xs = (collectArr t xs).find? JVal.truthy
  | [] => by simp [scanArr, collectArr]
  | v :: rest => by
      have hA := findStatement_toTruthy t v
      have hB := scanArr_eq_find t rest
      simp only [scanArr, collectArr, List.find?_append, ← hA, ← hB]
      cases h : findStatementRec t v with
      | none => simp [toTruthy]
      | some r =>
        by_cases ht : r.truthy = true <;> simp [toTruthy, ht]
  termination_by structural xs => xs

end

/-- The fixture of the statement-search claim. -/
def fxC5 : JVal := .jobj [("a", .jobj [("id", .jstr "q1"), ("x", .jnum 1)]),
  ("b", .jarr [.jobj [("id", .jstr "q2"), ("statement", .jstr "SELECT 1")]])]

/-- A blob whose first matching object (depth-first) carries a falsy
(empty) statement while a later matching object carries `SELECT 1`. -/
def fxC5x : JVal := .jobj [("a", .jobj [("id", .jstr "q"), ("statement", .jstr "")]),
  ("b", .jarr [.jobj [("id", .jstr "q"), ("statement", .jstr "SELECT 1")]])]

/-- C5 counterexample: the claim says the search "returns the statement
value of the first object satisfying id == target AND has key statement"
— on `fxC5x` that first object's statement is `""`, but the code returns
`"SELECT 1"` from the second matching object, because callers discard
falsy recursive results (`if result:`). -/
theorem c5_counterexample :
    firstMatchStatement (.jstr "q") fxC5x = some (.jstr "") ∧
    findStatementRec (.jstr "q") fxC5x = some (.jstr "SELECT 1") ∧
    some (JVal.jstr "SELECT 1") ≠ some (JVal.jstr "") := by
  refine ⟨by decide, by decide, by decide⟩

/-- C5 (amended): the search visits nodes depth-first in encountered
order, never descending into a matched object; it returns the statement of
the first matching object *whose statement value is truthy* — except that
when the root object itself matches, its statement is returned even if
falsy.  On the fixture it returns `SELECT 1` for target `q2` and nothing
for target `q1`. -/
theorem c5_first_truthy_match :
    (∀ t v : JVal,
      findStatementRec t v =
        (match v with
         | .jobj fs =>
           if isStmtMatch fs t then jlookup fs "statement"
           else (collectMatches t v).find? JVal.truthy
         | _ => (collectMatches t v).find? JVal.truthy)) ∧
    findStatementRec (.jstr "q2") fxC5 = some (.jstr "SELECT 1") ∧
    findStatementRec (.jstr "q1") fxC5 = none := by
  refine ⟨fun t v => ?_, by decide, by decide⟩
  cases v with
  | jobj fs =>
    by_cases h : isStmtMatch fs t = true
    · simp [findStatementRec, h]
    · simp [findStatementRec, collectMatches, h, scanKVs_eq_find t fs]
  | jarr xs => simpa [findStatementRec, collectMatches] using scanArr_eq_find t xs
  | jnull => simp [findStatementRec, collectMatches]
  | jbool b => simp [findStatementRec, collectMatches]
  | jnum n => simp [findStatementRec, collectMatches]
  | jstr s => simp [findStatementRec, collectMatches]

/-!
### C8 - CSV escaping
-/

theorem pyJoinComma_strings (cols : List String) :
    pyJoinComma (.jarr (cols.map JVal.jstr)) = .ok (String.intercalate "," cols) := by
  have h : exceptMapM (fun c =>
      match c with
      | JVal.jstr s => Except.ok s
      | _ => Except.error PyErr.typeError) (cols.map JVal.jstr) = Except.ok cols := by
    induction cols with
    | nil => rfl
    | cons c rest ih => simp [exceptMapM, ih]
  simp [pyJoinComma, pyIter, h]

theorem csvRowLine_arr (r : List JVal) :
    csvRowLine (.jarr r) = .ok (String.intercalate "," (r.map escapeCsvCell)) := by
  simp [csvRowLine, pyIter]

theorem exceptMapM_rowLines (rows : List (List JVal)) :
    exceptMapM csvRowLine (rows.map JVal.jarr) =
      Except.ok (rows.map (fun r => String.intercalate "," (r.map escapeCsvCell))) := by
  induction rows with
  | nil => rfl
  | cons r rest ih => simp [exceptMapM, csvRowLine_arr, ih]

/-- C8: when serializing fetched result rows to CSV, a string cell
containing a comma, double quote or newline is emitted wrapped in double
quotes with embedded quotes doubled (`He said, "hi"` becomes
`"He said, ""hi"""`); every other cell is emitted unquoted (`str(cell)`,
the string itself for plain strings); and the emitted file is the header
row of column names followed by one comma-joined line per data row. -/
theorem c8_csv_escaping :
    (∀ s : String,
      (s.data.contains ',' || s.data.contains '"' || s.data.contains '\n') = true →
      escapeCsvCell (.jstr s) = "\"" ++ replaceChar s '"' "\"\"" ++ "\"") ∧
    (∀ s : String,
      (s.data.contains ',' || s.data.contains '"' || s.data.contains '\n') = false →
      escapeCsvCell (.jstr s) = s) ∧
    (∀ c : JVal, (∀ s, c ≠ .jstr s) → escapeCsvCell c = pyStr c) ∧
    escapeCsvCell (.jstr "He said, \"hi\"") = "\"He said, \"\"hi\"\"\"" ∧
    (∀ (cols : List String) (rows : List (List JVal)),
      cols ≠ [] → rows ≠ [] →
      compassCsvContent (.jobj [("columns", .jarr (cols.map JVal.jstr)),
        ("csvData", .jarr (rows.map JVal.jarr))]) =
      .ok (String.intercalate "\n"
        (String.intercalate "," cols ::
         rows.map (fun r => String.intercalate "," (r.map escapeCsvCell))))) := by
  refine ⟨fun s h => by simp only [escapeCsvCell]; rw [if_pos h],
    fun s h => by simp only [escapeCsvCell]; rw [if_neg (by rw [h]; simp)],
    fun c h => ?_, by decide, fun cols rows hc hr => ?_⟩
  · cases c with
    | jstr s => exact absurd rfl (h s)
    | jnull => rfl
    | jbool b => rfl
    | jnum n => rfl
    | jarr xs => rfl
    | jobj fs => rfl
  · have hlines := exceptMapM_rowLines rows
    have hct : (JVal.jarr (cols.map JVal.jstr)).truthy = true := by
      simp [JVal.truthy, hc]
    have hrt : (JVal.jarr (rows.map JVal.jarr)).truthy = true := by
      simp [JVal.truthy, hr]
    simp [compassCsvContent, pyGetD, jlookup, hct, hrt, pyJoinComma_strings, pyIter, hlines]

/-- C8 witness: the theorem applied at the fixture cell `He said, "hi"`,
a plain cell, a numeric cell, and a one-row table. -/
theorem c8_csv_escaping_witness :
    escapeCsvCell (.jstr "He said, \"hi\"") = "\"He said, \"\"hi\"\"\"" ∧
    escapeCsvCell (.jstr "plain") = "plain" ∧
    escapeCsvCell (.jnum 3) = "3" ∧
    compassCsvContent (.jobj [("columns", .jarr [.jstr "a", .jstr "b"]),
      ("csvData", .jarr [.jarr [.jstr "x,y", .jnum 3]])]) = .ok "a,b\n\"x,y\",3" := by
  refine ⟨c8_csv_escaping.2.2.2.1, ?_, ?_, ?_⟩
  · exact c8_csv_escaping.2.1 "plain" (by decide)
  · exact c8_csv_escaping.2.2.1 (.jnum 3) (by intro s h; cases h)
  · have h := c8_csv_escaping.2.2.2.2 ["a", "b"] [[.jstr "x,y", .jnum 3]]
      (by decide) (by decide)
    simpa using h

/-!
### C3 - title resolution precedence
-/

/-- Total dict field read (used in specification statements, under
hypotheses that make it agree with the raising `pyGet`). -/
def jGetT (v : JVal) (key : String) : JVal :=
  match v with
  | .jobj fs => (jlookup fs key).getD .jnull
  | _ => .jnull

/-- Total dict field read with default. -/
def jGetTD (v : JVal) (key : String) (d : JVal) : JVal :=
  match v with
  | .jobj fs => (jlookup fs key).getD d
  | _ => d

/-- Total dict key-presence test. -/
def hasKey (v : JVal) (key : String) : Bool :=
  match v with
  | .jobj fs => fs.any (fun kv => kv.1 == key)
  | _ => false

theorem pyGet_of_isObj {v : JVal} (h : v.isObj = true) (k : String) :
    pyGet v k = .ok (jGetT v k) := by
  cases v <;> simp_all [pyGet, pyGetD, jGetT, JVal.isObj]

theorem pyGetD_of_isObj {v : JVal} (h : v.isObj = true) (k : String) (d : JVal) :
    pyGetD v k d = .ok (jGetTD v k d) := by
  cases v <;> simp_all [pyGetD, jGetTD, JVal.isObj]

theorem pyContains_of_isObj {v : JVal} (h : v.isObj = true) (k : String) :
    pyContains v k = .ok (hasKey v k) := by
  cases v <;> simp_all [pyContains, hasKey, JVal.isObj]

theorem jlookup_isSome_any (fs : List (String × JVal)) (k : String) :
    (jlookup fs k).isSome = fs.any (fun kv => kv.1 == k) := by
  induction fs with
  | nil => rfl
  | cons kv rest ih =>
    cases kv with
    | mk k1 v1 =>
      by_cases h : (k1 == k) = true <;> simp [jlookup, h, ih]

/-- The configuration the code selects: `publishedConfig` exactly when the
key is present, else `draftConfig` (default `{}`). -/
def selectedConfig (dash : JVal) : JVal :=
  jGetTD dash (if hasKey dash "publishedConfig" then "publishedConfig" else "draftConfig")
    (.jobj [])

/-- The selected configuration's `visualizations` map (default `{}`). -/
def vizDefMap (dash : JVal) : JVal :=
  jGetTD (selectedConfig dash) "visualizations" (.jobj [])

/-- The visualization definition registered for the cell's `visId` in the
configuration's `visualizations` map (the lookup described in the spec). -/
def specVizDef (dash vc : JVal) : Option JVal :=
  match jGetT vc "visId" with
  | .jstr s =>
    (match vizDefMap dash with
     | .jobj fs => jlookup fs s
     | _ => none)
  | _ => none

/-- Shape conditions under which the visualization-definition lookup of
the title/type resolvers runs without a caught error. -/
def titleDefWF (dash vc : JVal) : Bool :=
  dash.isObj && (selectedConfig dash).isObj && (vizDefMap dash).isObj &&
  !(jGetT vc "visId").unhashable

/-- The generated fallback label (line 395). -/
def genericTitle (vc : JVal) : JVal :=
  .jstr ("Chart " ++ pyStr (jGetTD vc "id" (.jstr "Unknown")))

theorem pyInDict_vizmap {dash vc : JVal} (hmap : (vizDefMap dash).isObj = true)
    (hhash : (jGetT vc "visId").unhashable = false) :
    pyInDict (jGetT vc "visId") (vizDefMap dash) = .ok (specVizDef dash vc).isSome := by
  cases hm : vizDefMap dash with
  | jobj fs =>
    cases hv : jGetT vc "visId" <;>
      simp_all [pyInDict, specVizDef, JVal.unhashable, jlookup_isSome_any]
  | jnull => simp_all [JVal.isObj]
  | jbool b => simp_all [JVal.isObj]
  | jnum n => simp_all [JVal.isObj]
  | jstr s => simp_all [JVal.isObj]
  | jarr xs => simp_all [JVal.isObj]

theorem pySubscriptKey_vizmap {dash vc d : JVal} (hmap : (vizDefMap dash).isObj = true)
    (hd : specVizDef dash vc = some d) :
    pySubscriptKey (vizDefMap dash) (jGetT vc "visId") = .ok d := by
  cases hm : vizDefMap dash with
  | jobj fs =>
    cases hv : jGetT vc "visId" <;> simp_all [pySubscriptKey, specVizDef]
  | jnull => simp_all [JVal.isObj]
  | jbool b => simp_all [JVal.isObj]
  | jnum n => simp_all [JVal.isObj]
  | jstr s => simp_all [JVal.isObj]
  | jarr xs => simp_all [JVal.isObj]

theorem fallbackTitle_of_isObj {vc : JVal} (h : vc.isObj = true) :
    fallbackTitle vc = .ok (genericTitle vc) := by
  cases vc <;> simp_all [fallbackTitle, pyGetD, genericTitle, jGetTD, JVal.isObj]

/-- The value the visualization-definition leg of the title chain
produces: the definition's truthy title, else its truthy display-name,
else the generated fallback label; the fallback also applies when no
definition is registered for the cell's `visId`. -/
def defTitleResult (dash vc : JVal) : JVal :=
  match specVizDef dash vc with
  | some d =>
    if (jGetT d "title").truthy then jGetT d "title"
    else if (jGetT d "displayName").truthy then jGetT d "displayName"
    else genericTitle vc
  | none => genericTitle vc

/-- C3: the resolved title follows the precedence live-config title, cell
content title, cell layout title, content display-name, content label,
visualization-definition title then display-name, generated fallback; and
on the fixtures, a live config title `Live` beats a content title `Cell`,
while without live data the content title `Cell` wins. -/
theorem c3_title_precedence :
    (∀ vc cd dash cfg : JVal,
      vc.isObj = true → cd.isObj = true → cfg.isObj = true →
      titleDefWF dash vc = true →
      (specVizDef dash vc).all JVal.isObj = true →
      extractChartTitleWithApi vc cd dash cfg =
        (let api := jGetTD cfg "title" (.jstr "")
         if api.truthy then api
         else if (jGetT vc "title").truthy then jGetT vc "title"
         else if (jGetT cd "title").truthy then jGetT cd "title"
         else if (jGetT vc "displayName").truthy then jGetT vc "displayName"
         else if (jGetT vc "label").truthy then jGetT vc "label"
         else if (jGetT vc "visId").truthy then defTitleResult dash vc
         else genericTitle vc)) ∧
    extractChartTitleWithApi (.jobj [("title", .jstr "Cell")]) (.jobj []) (.jobj [])
      (.jobj [("title", .jstr "Live")]) = .jstr "Live" ∧
    extractChartTitleWithApi (.jobj [("title", .jstr "Cell")]) (.jobj []) (.jobj [])
      (.jobj []) = .jstr "Cell" := by
  refine ⟨fun vc cd dash cfg hvc hcd hcfg hwf hdefs => ?_, by decide, by decide⟩
  simp only [titleDefWF, Bool.and_eq_true] at hwf
  obtain ⟨⟨⟨hdash, hsel⟩, hmap⟩, hhash⟩ := hwf
  rw [Bool.not_eq_true'] at hhash
  simp only [extractChartTitleWithApi, pyGetD_of_isObj hcfg]
  by_cases hapi : (jGetTD cfg "title" (.jstr "")).truthy = true
  · simp [hapi]
  · simp only [Bool.not_eq_true] at hapi
    simp only [hapi, Bool.false_eq_true, if_false,
      extractChartTitle, extractChartTitleE,
      pyGet_of_isObj hvc, pyGet_of_isObj hcd,
      pyContains_of_isObj hdash, pyGetD_of_isObj hdash,
      pyGetD_of_isObj hsel]
    by_cases h1 : (jGetT vc "title").truthy = true
    · simp [h1]
    · simp only [Bool.not_eq_true] at h1
      simp only [h1, Bool.false_eq_true, if_false]
      by_cases h2 : (jGetT cd "title").truthy = true
      · simp [h2]
      · simp only [Bool.not_eq_true] at h2
        simp only [h2, Bool.false_eq_true, if_false]
        by_cases h3 : (jGetT vc "displayName").truthy = true
        · simp [h3]
        · simp only [Bool.not_eq_true] at h3
          simp only [h3, Bool.false_eq_true, if_false]
          by_cases h4 : (jGetT vc "label").truthy = true
          · simp [h4]
          · simp only [Bool.not_eq_true] at h4
            simp only [h4, Bool.false_eq_true, if_false]
            by_cases h5 : (jGetT vc "visId").truthy = true
            · simp only [h5, Bool.not_true, Bool.false_eq_true, if_false, if_true]
              have hsc : jGetTD dash
                  (if hasKey dash "publishedConfig" then "publishedConfig"
                   else "draftConfig") (.jobj []) = selectedConfig dash := rfl
              have hvm : jGetTD (selectedConfig dash) "visualizations" (.jobj []) =
                  vizDefMap dash := rfl
              simp only [hsc, pyGetD_of_isObj hsel, hvm, pyInDict_vizmap hmap hhash]
              cases hd : specVizDef dash vc with
              | none =>
                simp [hd, fallbackTitle_of_isObj hvc, defTitleResult]
              | some d =>
                have hdobj : d.isObj = true := by simp_all [Option.all]
                simp only [hd, Option.isSome_some, Bool.not_true, Bool.false_eq_true,
                  if_false, pySubscriptKey_vizmap hmap hd, pyGet_of_isObj hdobj]
                by_cases h6 : (jGetT d "title").truthy = true
                · simp [h6, defTitleResult, hd]
                · simp only [Bool.not_eq_true] at h6
                  simp only [h6, Bool.false_eq_true, if_false]
                  by_cases h7 : (jGetT d "displayName").truthy = true
                  · simp [h6, h7, defTitleResult, hd]
                  · simp only [Bool.not_eq_true] at h7
                    simp [h6, h7, defTitleResult, hd, fallbackTitle_of_isObj hvc]
            · simp only [Bool.not_eq_true] at h5
              simp [h5, fallbackTitle_of_isObj hvc]

/-- C3 witness: the precedence theorem applied to a cell whose only title
source is the registered visualization definition. -/
theorem c3_title_precedence_witness :
    extractChartTitleWithApi (.jobj [("visId", .jstr "v1")]) (.jobj [])
      (.jobj [("publishedConfig",
        .jobj [("visualizations", .jobj [("v1", .jobj [("title", .jstr "Def")])])])])
      (.jobj []) = .jstr "Def" := by
  have h := c3_title_precedence.1 (.jobj [("visId", .jstr "v1")]) (.jobj [])
    (.jobj [("publishedConfig",
      .jobj [("visualizations", .jobj [("v1", .jobj [("title", .jstr "Def")])])])])
    (.jobj []) (by decide) (by decide) (by decide) (by decide) (by decide)
  rw [h]
  decide

/-!
### C4 / C10 - chart-kind resolution
-/

theorem pyGetD_ok_eq {v : JVal} {k : String} {d x : JVal} (h : pyGetD v k d = .ok x) :
    x = jGetTD v k d ∧ v.isObj = true := by
  cases v <;> simp_all [pyGetD, jGetTD, JVal.isObj]

theorem pyGet_ok_eq {v : JVal} {k : String} {x : JVal} (h : pyGet v k = .ok x) :
    x = jGetT v k ∧ v.isObj = true := by
  have := pyGetD_ok_eq (v := v) (k := k) (d := .jnull) h
  simpa [jGetT, jGetTD] using this

/-- A successfully built chart config is a non-empty dict whose first key
is `type`, so the loop's `chart_config.get('type', chart_type)` always
finds the fetched (possibly defaulted) type. -/
theorem buildChartConfig_ok_shape {vd r : JVal} (h : buildChartConfig vd = .ok r) :
    r.isObj = true ∧ r.truthy = true ∧ ∀ d : JVal, jGetTD r "type" d = jGetT r "type" := by
  unfold buildChartConfig at h
  repeat' split at h
  all_goals cases h
  exact ⟨rfl, rfl, fun d => rfl⟩

/-- The fetched chart config is always a dict (`{}` on failure). -/
theorem fetchChartConfig_isObj (O : Oracles) (visId : JVal) :
    (fetchChartConfigFromApi O visId).2.isObj = true := by
  unfold fetchChartConfigFromApi
  by_cases ht : visId.truthy = true
  · simp only [ht, Bool.not_true, Bool.false_eq_true, if_false]
    cases ho : O.vizApi visId with
    | none => simp [JVal.isObj]
    | some vizData =>
      cases hb : buildChartConfig vizData with
      | error e => simp [hb, JVal.isObj]
      | ok cfg => simp [hb, (buildChartConfig_ok_shape hb).1]
  · simp [ht, JVal.isObj]

/-- The chart kind of one visualization cell as the loop composes it
(lines 246, 254 and 263): the fetched config's `type` entry with the
embedded `_extract_chart_type` result as the `.get` default. -/
def cellChartKind (O : Oracles) (dash vc : JVal) : JVal :=
  jGetTD (fetchChartConfigFromApi O (jGetT vc "visId")).2 "type" (extractChartType vc dash)

/-- The keyword fallback of the chart-kind chain: a substring match over
the lower-cased *content title field* (`viz_content.get('title', '')`); a
non-string title value means the caught `AttributeError`, i.e. `unknown`. -/
def keywordKind (vc : JVal) : JVal :=
  match jGetTD vc "title" (.jstr "") with
  | .jstr s => chartTypeFromTitle (strToLower s)
  | _ => .jstr "unknown"

/-- The embedded (no live data) chart-kind chain: first truthy of the
visualization definition's `chartType`/`type`/`chart_type`, else the
keyword fallback; no registered definition also falls to the keyword. -/
def embeddedKind (dash vc : JVal) : JVal :=
  match specVizDef dash vc with
  | some d =>
    (match [jGetT d "chartType", jGetT d "type", jGetT d "chart_type"].find? JVal.truthy with
     | some ct => ct
     | none => keywordKind vc)
  | none => keywordKind vc

/-- The chart-kind chain exactly as the claim words it, differing from the
code in one place: the keyword match runs against the *resolved* title
(the full C3 chain) instead of the content's own `title` field. -/
def specChartKindClaimed (O : Oracles) (dash vc cd : JVal) : JVal :=
  let visId := jGetT vc "visId"
  if !visId.truthy then .jstr "unknown"
  else
    let cfg := (fetchChartConfigFromApi O visId).2
    if cfg.truthy then jGetT cfg "type"
    else
      match specVizDef dash vc with
      | some d =>
        (match [jGetT d "chartType", jGetT d "type", jGetT d "chart_type"].find?
            JVal.truthy with
         | some ct => ct
         | none =>
           match extractChartTitleWithApi vc cd dash cfg with
           | .jstr s => chartTypeFromTitle (strToLower s)
           | _ => .jstr "unknown")
      | none =>
        match extractChartTitleWithApi vc cd dash cfg with
        | .jstr s => chartTypeFromTitle (strToLower s)
        | _ => .jstr "unknown"

/-- The amended chart-kind chain: live type when the fetch succeeded, else
the embedded chain with the keyword fallback on the content title field;
`unknown` when the cell has no (truthy) `visId`. -/
def specChartKindAmended (O : Oracles) (dash vc : JVal) : JVal :=
  let visId := jGetT vc "visId"
  if !visId.truthy then .jstr "unknown"
  else
    let cfg := (fetchChartConfigFromApi O visId).2
    if cfg.truthy then jGetT cfg "type" else embeddedKind dash vc

/-- Under the definition-lookup shape conditions, the embedded resolver
equals the embedded chain for cells with a truthy `visId`. -/
theorem extractChartType_eq_embeddedKind {dash vc : JVal} (hvc : vc.isObj = true)
    (hwf : titleDefWF dash vc = true)
    (hdefs : (specVizDef dash vc).all JVal.isObj = true)
    (h5 : (jGetT vc "visId").truthy = true) :
    extractChartType vc dash = embeddedKind dash vc := by
  simp only [titleDefWF, Bool.and_eq_true] at hwf
  obtain ⟨⟨⟨hdash, hsel⟩, hmap⟩, hhash⟩ := hwf
  rw [Bool.not_eq_true'] at hhash
  have hsc : jGetTD dash
      (if hasKey dash "publishedConfig" then "publishedConfig"
       else "draftConfig") (.jobj []) = selectedConfig dash := rfl
  have hvm : jGetTD (selectedConfig dash) "visualizations" (.jobj []) =
      vizDefMap dash := rfl
  simp only [extractChartType, extractChartTypeE, pyGet_of_isObj hvc, h5,
    Bool.not_true, Bool.false_eq_true, if_false,
    pyContains_of_isObj hdash, pyGetD_of_isObj hdash, hsc,
    pyGetD_of_isObj hsel, hvm, pyInDict_vizmap hmap hhash]
  cases hd : specVizDef dash vc with
  | none =>
    simp only [hd, Option.isSome_none, Bool.false_eq_true, if_false, embeddedKind]
    simp only [pyGetD_of_isObj hvc, keywordKind]
    cases jGetTD vc "title" (.jstr "") <;> simp
  | some d =>
    have hdobj : d.isObj = true := by simp_all [Option.all]
    simp only [hd, Option.isSome_some, if_true, pySubscriptKey_vizmap hmap hd,
      pyGet_of_isObj hdobj, embeddedKind]
    by_cases h1 : (jGetT d "chartType").truthy = true
    · simp [h1, List.find?]
    · simp only [Bool.not_eq_true] at h1
      by_cases h2 : (jGetT d "type").truthy = true
      · simp [h1, h2, List.find?]
      · simp only [Bool.not_eq_true] at h2
        by_cases h3 : (jGetT d "chart_type").truthy = true
        · simp [h1, h2, h3, List.find?]
        · simp only [Bool.not_eq_true] at h3
          simp only [h1, h2, h3, Bool.false_eq_true, if_false, List.find?]
          simp only [pyGetD_of_isObj hvc, keywordKind]
          cases jGetTD vc "title" (.jstr "") <;> simp

/-- Oracles for a run in which every external call fails or returns
nothing. -/
def O0 : Oracles := {}

theorem jGetTD_empty (k : String) (d : JVal) : jGetTD (.jobj []) k d = d := rfl

theorem cellChartKind_no_visId {O : Oracles} {dash vc : JVal} (hvc : vc.isObj = true)
    (h5 : (jGetT vc "visId").truthy = false) :
    cellChartKind O dash vc = .jstr "unknown" := by
  simp only [cellChartKind, fetchChartConfigFromApi, h5, Bool.not_false, if_true,
    jGetTD_empty]
  simp only [extractChartType, extractChartTypeE, pyGet_of_isObj hvc, h5,
    Bool.not_false, if_true]

/-- C4 counterexample: a cell whose content has no `title` but a
display-name `bar chart of fees`, no registered definition, and a failed
live fetch.  The resolved title is `bar chart of fees`, so the claimed
chain (keyword match on the *resolved* title) yields `bar`; the code's
keyword match reads only the content's own `title` field (empty here) and
yields the generic `chart`. -/
theorem c4_counterexample :
    cellChartKind O0 (.jobj [("publishedConfig", .jobj [("visualizations", .jobj [])])])
      (.jobj [("visId", .jstr "v1"), ("displayName", .jstr "bar chart of fees")]) =
      .jstr "chart" ∧
    specChartKindClaimed O0
      (.jobj [("publishedConfig", .jobj [("visualizations", .jobj [])])])
      (.jobj [("visId", .jstr "v1"), ("displayName", .jstr "bar chart of fees")])
      (.jobj []) = .jstr "bar" ∧
    JVal.jstr "chart" ≠ JVal.jstr "bar" := by
  refine ⟨by decide, by decide, by decide⟩

/-- C4 (amended): the resolved chart kind prefers the live-fetched
configuration's type entry (present, possibly defaulted, whenever the
fetch succeeded); else the visualization definition's
`chartType`/`type`/`chart_type`; else a keyword match — against the cell
content's own `title` field (lower-cased; the claim's "resolved title" is
amended to this), mapping the substrings bar/line/pie/histogram/scatter/
table and defaulting to `chart`; and a cell without a truthy `visId`
resolves to `unknown` with no keyword fallback attempted. -/
theorem c4_chart_kind :
    (∀ (O : Oracles) (dash vc : JVal),
      vc.isObj = true → titleDefWF dash vc = true →
      (specVizDef dash vc).all JVal.isObj = true →
      cellChartKind O dash vc = specChartKindAmended O dash vc) ∧
    (∀ (O : Oracles) (dash vc : JVal), vc.isObj = true →
      (jGetT vc "visId").truthy = false →
      cellChartKind O dash vc = .jstr "unknown") := by
  refine ⟨fun O dash vc hvc hwf hdefs => ?_, fun O dash vc hvc h5 =>
    cellChartKind_no_visId hvc h5⟩
  by_cases h5 : (jGetT vc "visId").truthy = true
  · simp only [cellChartKind, specChartKindAmended, h5, Bool.not_true,
      Bool.false_eq_true, if_false]
    simp only [fetchChartConfigFromApi, h5, Bool.not_true, Bool.false_eq_true, if_false]
    cases ho : O.vizApi (jGetT vc "visId") with
    | none =>
      simp only [ho, jGetTD_empty]
      rw [if_neg (by decide)]
      exact extractChartType_eq_embeddedKind hvc hwf hdefs h5
    | some vizData =>
      simp only [ho]
      cases hb : buildChartConfig vizData with
      | error e =>
        simp only [hb, jGetTD_empty]
        rw [if_neg (by decide)]
        exact extractChartType_eq_embeddedKind hvc hwf hdefs h5
      | ok cfg =>
        obtain ⟨-, htr, hty⟩ := buildChartConfig_ok_shape hb
        simp only [hb, hty]
        rw [if_pos htr]
  · rw [Bool.not_eq_true] at h5
    rw [cellChartKind_no_visId hvc h5]
    simp [specChartKindAmended, h5]

/-- C4 witness: the amended chain applied to a cell with no registered
definition and a content title containing `Line`, resolving to `line`. -/
theorem c4_chart_kind_witness :
    cellChartKind O0 (.jobj [])
      (.jobj [("visId", .jstr "v1"), ("title", .jstr "Line of things")]) =
      .jstr "line" := by
  have h := c4_chart_kind.1 O0 (.jobj [])
    (.jobj [("visId", .jstr "v1"), ("title", .jstr "Line of things")])
    (by decide) (by decide) (by decide)
  rw [h]
  decide

theorem jGetTD_of_hasKey_false {v : JVal} {k : String} (h : hasKey v k = false)
    (d : JVal) : jGetTD v k d = d := by
  cases v with
  | jobj fs =>
    have : (jlookup fs k).isSome = false := by
      rw [jlookup_isSome_any]
      simpa [hasKey] using h
    cases hl : jlookup fs k with
    | none => simp [jGetTD, hl]
    | some x => rw [hl] at this; cases this
  | jnull => rfl
  | jbool b => rfl
  | jnum n => rfl
  | jstr s => rfl
  | jarr xs => rfl

theorem buildChartConfig_type_field {vd : JVal} (h0 : vd.isObj = true)
    (h1 : (jGetTD vd "config" (.jobj [])).isObj = true)
    (h2 : (jGetTD (jGetTD vd "config" (.jobj [])) "inputs" (.jobj [])).isObj = true)
    (h3 : (jGetTD (jGetTD vd "config" (.jobj [])) "options" (.jobj [])).isObj = true)
    (h4 : (jGetTD (jGetTD (jGetTD vd "config" (.jobj [])) "options" (.jobj []))
        "title" (.jobj [])).isObj = true)
    (h5 : (jGetTD (jGetTD (jGetTD vd "config" (.jobj [])) "options" (.jobj []))
        "subtitle" (.jobj [])).isObj = true) :
    ∃ r, buildChartConfig vd = .ok r ∧
      jGetT r "type" =
        jGetTD (jGetTD (jGetTD vd "config" (.jobj [])) "inputs" (.jobj []))
          "type" (.jstr "unknown") := by
  unfold buildChartConfig
  simp only [pyGetD_of_isObj h0, pyGetD_of_isObj h1, pyGetD_of_isObj h2,
    pyGetD_of_isObj h3, pyGetD_of_isObj h4, pyGetD_of_isObj h5,
    pyGet, pyGetD_of_isObj h0]
  exact ⟨_, rfl, rfl⟩

/-- C10: when the live fetch for a cell's `visId` succeeds but the decoded
response has no `type` key under `config.inputs`, the built config carries
the defaulted `type: "unknown"`, and since a built config always has a
`type` key, the final resolved chart kind is `unknown` — the kind derived
from the embedded visualization definition is used only when the fetched
config is empty (fetch failed, mis-shaped response, or no truthy
`visId`). -/
theorem c10_defaulted_type :
    (∀ (O : Oracles) (dash vc vizData : JVal), vc.isObj = true →
      (jGetT vc "visId").truthy = true →
      O.vizApi (jGetT vc "visId") = some vizData →
      vizData.isObj = true →
      (jGetTD vizData "config" (.jobj [])).isObj = true →
      (jGetTD (jGetTD vizData "config" (.jobj [])) "inputs" (.jobj [])).isObj = true →
      (jGetTD (jGetTD vizData "config" (.jobj [])) "options" (.jobj [])).isObj = true →
      (jGetTD (jGetTD (jGetTD vizData "config" (.jobj [])) "options" (.jobj []))
        "title" (.jobj [])).isObj = true →
      (jGetTD (jGetTD (jGetTD vizData "config" (.jobj [])) "options" (.jobj []))
        "subtitle" (.jobj [])).isObj = true →
      hasKey (jGetTD (jGetTD vizData "config" (.jobj [])) "inputs" (.jobj []))
        "type" = false →
      cellChartKind O dash vc = .jstr "unknown") ∧
    (∀ (O : Oracles) (dash vc : JVal),
      (fetchChartConfigFromApi O (jGetT vc "visId")).2 = .jobj [] →
      cellChartKind O dash vc = extractChartType vc dash) := by
  constructor
  · intro O dash vc vizData hvc hvis ho h0 h1 h2 h3 h4 h5 hnokey
    obtain ⟨r, hb, hty⟩ := buildChartConfig_type_field h0 h1 h2 h3 h4 h5
    have htyu : jGetT r "type" = .jstr "unknown" := by
      rw [hty, jGetTD_of_hasKey_false hnokey]
    obtain ⟨-, htr, htd⟩ := buildChartConfig_ok_shape hb
    simp only [cellChartKind, fetchChartConfigFromApi, hvis, Bool.not_true,
      Bool.false_eq_true, if_false, ho, hb, htd, htyu]
  · intro O dash vc hempty
    simp only [cellChartKind, hempty, jGetTD_empty]

/-- Oracle whose visualization API returns, for `v1`, a response whose
`config.inputs` carries no `type` key. -/
def O10 : Oracles :=
  { vizApi := fun v =>
      if v = .jstr "v1" then
        some (.jobj [("config", .jobj [("inputs", .jobj [("x", .jnum 1)]),
          ("options", .jobj [])])])
      else none }

/-- C10 witness: even though the embedded definition registers
`chartType: bar` for the cell's `visId`, the successful fetch with no
`config.inputs.type` resolves the kind to `unknown`. -/
theorem c10_defaulted_type_witness :
    cellChartKind O10
      (.jobj [("publishedConfig",
        .jobj [("visualizations", .jobj [("v1", .jobj [("chartType", .jstr "bar")])])])])
      (.jobj [("visId", .jstr "v1")]) = .jstr "unknown" :=
  c10_defaulted_type.1 O10
    (.jobj [("publishedConfig",
      .jobj [("visualizations", .jobj [("v1", .jobj [("chartType", .jstr "bar")])])])])
    (.jobj [("visId", .jstr "v1")])
    (.jobj [("config", .jobj [("inputs", .jobj [("x", .jnum 1)]), ("options", .jobj [])])])
    (by decide) (by decide) (by decide) (by decide) (by decide) (by decide)
    (by decide) (by decide) (by decide) (by decide)

/-!
### The loop lemmas (C1, C2, C7)
-/

/-- Whether an event is one of the per-query side effects (inline
statement search, studio SQL fetch fallback, legacy CSV attempts, compass
result fetch) directed at the given query id. -/
def isQueryEvent (q : JVal) : Event → Bool
  | .inlineSqlSearch x => x == q
  | .studioSqlFetch x => x == q
  | .legacyCsvFetch x _ => x == q
  | .compassCsvFetch _ x => x == q
  | .vizApiFetch _ => false

/-- Whether an event is the live chart-config fetch. -/
def isVizFetchEvent : Event → Bool
  | .vizApiFetch _ => true
  | _ => false

/-- Whether a processed cell's descriptor references the query id. -/
def cellRefs (o : CellOut) (q : JVal) : Bool :=
  match o.viz with
  | some v => v.queryId == q
  | none => false

theorem cellRefs_some (cid : String) (b : Bool) (evs : List Event) (v : Viz)
    (q : JVal) : cellRefs ⟨cid, b, evs, some v⟩ q = (v.queryId == q) := rfl

theorem cellRefs_none (cid : String) (b : Bool) (evs : List Event) (q : JVal) :
    cellRefs ⟨cid, b, evs, none⟩ q = false := rfl

theorem filter_processQueryArtifacts (O : Oracles) (dash q c q' : JVal) :
    (processQueryArtifacts O dash q c).filter (isQueryEvent q') =
      if q == q' then processQueryArtifacts O dash q c else [] := by
  cases hq : q == q' <;>
    cases hst : O.studioSql q <;>
    by_cases hl1 : O.legacyCsv q 1 <;>
    by_cases hl2 : O.legacyCsv q 2 <;>
    by_cases hsql : extractSqlFromDashboardData q dash = true <;>
    by_cases hc : c.truthy = true <;>
    simp [processQueryArtifacts, extractSqlForQuery, tryFetchCsvData,
      fetchCsvDataFromCompass, isQueryEvent, List.filter, hq, hst, hl1, hl2, hsql, hc]

theorem filter_fetchEvents_query (O : Oracles) (v q' : JVal) :
    (fetchChartConfigFromApi O v).1.filter (isQueryEvent q') = [] := by
  unfold fetchChartConfigFromApi
  by_cases ht : v.truthy = true <;> simp [ht, isQueryEvent, List.filter]

theorem filter_processQueryArtifacts_vizFetch (O : Oracles) (dash q c : JVal) :
    (processQueryArtifacts O dash q c).filter isVizFetchEvent = [] := by
  cases hst : O.studioSql q <;>
    by_cases hl1 : O.legacyCsv q 1 <;>
    by_cases hl2 : O.legacyCsv q 2 <;>
    by_cases hsql : extractSqlFromDashboardData q dash = true <;>
    by_cases hc : c.truthy = true <;>
    simp [processQueryArtifacts, extractSqlForQuery, tryFetchCsvData,
      fetchCsvDataFromCompass, isVizFetchEvent, List.filter, hst, hl1, hl2, hsql, hc]

/-- Inversion of one successful `visualization`-cell iteration. -/
theorem processVizCell_ok {O : Oracles} {dash contents : JVal} {cid : String}
    {cdata : JVal} {processed : List JVal} {cc : Nat} {evs : List Event} {viz : Viz}
    {processed' : List JVal}
    (h : processVizCell O dash contents cid cdata processed cc =
      (evs, .ok (viz, processed'))) :
    viz.chartIdx = cc ∧ viz.cellId = cid ∧
    viz.compassId = findCompassIdForQuery viz.queryId dash ∧
    evs = (fetchChartConfigFromApi O viz.visId).1 ++
      (if viz.queryId.truthy && !(processed.contains viz.queryId)
       then processQueryArtifacts O dash viz.queryId viz.compassId else []) ∧
    processed' = (if viz.queryId.truthy && !(processed.contains viz.queryId)
       then processed ++ [viz.queryId] else processed) := by
  simp only [processVizCell] at h
  repeat' split at h
  all_goals (try (cases h))
  all_goals simp_all

theorem contains_append_single (l : List JVal) (a q : JVal) :
    (l ++ [a]).contains q = (l.contains q || q == a) := by
  induction l with
  | nil =>
    simp only [List.nil_append, List.contains, List.elem]
    cases q == a <;> simp
  | cons x xs ih => simp_all [List.contains, List.elem]; cases q == x <;> simp_all

/-- Per-cell characterization of the query-directed side effects of one
pass: a cell's events mention the query id `q` exactly when the cell is
the first visualization cell referencing `q` (relative to the ids already
in `processed_queries`), and then they are precisely the once-computed
effect list for `q`. -/
theorem runCells_query_events (O : Oracles) (dash contents : JVal) (q : JVal)
    (cells : List (String × JVal)) :
    ∀ (processed : List JVal) (cc : Nat) (outs : List CellOut),
      runCells O dash contents cells processed cc = (outs, none) →
      ∀ i (hi : i < outs.length),
        ((outs.get ⟨i, hi⟩).events.filter (isQueryEvent q)) =
          (if q.truthy && !(processed.contains q) && cellRefs (outs.get ⟨i, hi⟩) q &&
              (outs.take i).all (fun o => !(cellRefs o q))
           then processQueryArtifacts O dash q (findCompassIdForQuery q dash)
           else []) := by
  induction cells with
  | nil =>
    intro processed cc outs h i hi
    simp only [runCells, Prod.mk.injEq] at h
    obtain ⟨h1, -⟩ := h
    subst h1
    exact absurd hi (by simp)
  | cons cell rest ih =>
    obtain ⟨cid, cdata⟩ := cell
    intro processed cc outs h i hi
    simp only [runCells] at h
    cases hv : pyGet cdata "variant" with
    | error e =>
      rw [hv] at h
      simp [Prod.mk.injEq] at h
    | ok variant =>
      rw [hv] at h
      by_cases hviz : (variant == JVal.jstr "visualization") = true
      · simp only [hviz, if_true] at h
        cases hp : processVizCell O dash contents cid cdata processed (cc + 1) with
        | mk evs res =>
          rw [hp] at h
          cases res with
          | error e => simp [Prod.mk.injEq] at h
          | ok vp =>
            obtain ⟨viz, processed'⟩ := vp
            dsimp only [] at h
            cases hrest : runCells O dash contents rest processed' (cc + 1) with
            | mk outs' err =>
              rw [hrest] at h
              simp only [Prod.mk.injEq] at h
              obtain ⟨h1, h2⟩ := h
              subst h1
              subst h2
              obtain ⟨-, -, hcomp, hevs, hproc⟩ := processVizCell_ok hp
              cases i with
              | zero =>
                simp only [List.get, List.take_zero, List.all_nil, Bool.and_true]
                rw [hevs, List.filter_append, filter_fetchEvents_query]
                simp only [List.nil_append, cellRefs]
                rcases Bool.eq_false_or_eq_true (viz.queryId == q) with hqr | hqr
                · have hq : viz.queryId = q := eq_of_beq hqr
                  subst hq
                  simp only [hqr, Bool.and_true]
                  by_cases hC : (viz.queryId.truthy &&
                      !(processed.contains viz.queryId)) = true
                  · rw [if_pos hC, if_pos hC, filter_processQueryArtifacts, if_pos hqr,
                      hcomp]
                  · rw [if_neg hC, if_neg hC, List.filter_nil]
                · simp only [hqr, Bool.and_false]
                  rw [if_neg (show ¬(false = true) by simp)]
                  by_cases hC : (viz.queryId.truthy &&
                      !(processed.contains viz.queryId)) = true
                  · rw [if_pos hC, filter_processQueryArtifacts, if_neg (by simp [hqr])]
                  · rw [if_neg hC, List.filter_nil]
              | succ i' =>
                have hi' : i' < outs'.length := by simpa using hi
                have hIH := ih processed' (cc + 1) outs' hrest i' hi'
                simp only [List.get, List.take_succ_cons, List.all_cons]
                rw [hIH]
                rcases Bool.eq_false_or_eq_true (viz.queryId == q) with hqr | hqr
                · have hq : viz.queryId = q := eq_of_beq hqr
                  subst hq
                  simp only [cellRefs, hqr, Bool.not_true, Bool.false_and,
                    Bool.and_false]
                  rw [if_neg (show ¬(false = true) by simp)]
                  rw [hproc]
                  by_cases hC : (viz.queryId.truthy &&
                      !(processed.contains viz.queryId)) = true
                  · rw [if_pos hC]
                    rw [if_neg (by simp [contains_append_single, hqr])]
                  · rw [if_neg hC]
                    rw [if_neg (by
                      intro hcontra
                      apply hC
                      simp only [Bool.and_eq_true] at hcontra
                      simp only [Bool.and_eq_true]
                      exact ⟨hcontra.1.1.1, hcontra.1.1.2⟩)]
                · have hq2 : (q == viz.queryId) = false := by
                    rcases Bool.eq_false_or_eq_true (q == viz.queryId) with hq2 | hq2
                    · have := eq_of_beq hq2
                      subst this
                      simp at hqr
                    · exact hq2
                  simp only [cellRefs, hqr, Bool.not_false, Bool.true_and]
                  rw [hproc]
                  by_cases hC : (viz.queryId.truthy &&
                      !(processed.contains viz.queryId)) = true
                  · rw [if_pos hC]
                    simp only [contains_append_single, hq2, Bool.or_false]
                  · rw [if_neg hC]
      · rw [Bool.not_eq_true] at hviz
        simp only [hviz, Bool.false_eq_true, if_false] at h
        cases hrest : runCells O dash contents rest processed cc with
        | mk outs' err =>
          rw [hrest] at h
          simp only [Prod.mk.injEq] at h
          obtain ⟨h1, h2⟩ := h
          subst h1
          subst h2
          cases i with
          | zero => simp [List.filter, cellRefs]
          | succ i' =>
            have hi' : i' < outs'.length := by simpa using hi
            have hIH := ih processed cc outs' hrest i' hi'
            simp only [List.get, List.take_succ_cons, List.all_cons]
            rw [hIH]
            simp [cellRefs]

/-- Summing the per-cell events: the whole pass performs the query-directed
effects for `q` exactly once when some completed cell references `q` (and
`q` is truthy and not pre-processed), and never otherwise. -/
theorem runCells_total_query_events (O : Oracles) (dash contents : JVal) (q : JVal)
    (cells : List (String × JVal)) :
    ∀ (processed : List JVal) (cc : Nat) (outs : List CellOut),
      runCells O dash contents cells processed cc = (outs, none) →
      ((outs.map (fun o => o.events)).flatten.filter (isQueryEvent q)) =
        (if q.truthy && !(processed.contains q) && outs.any (fun o => cellRefs o q)
         then processQueryArtifacts O dash q (findCompassIdForQuery q dash)
         else []) := by
  induction cells with
  | nil =>
    intro processed cc outs h
    simp only [runCells, Prod.mk.injEq] at h
    obtain ⟨h1, -⟩ := h
    subst h1
    simp
  | cons cell rest ih =>
    obtain ⟨cid, cdata⟩ := cell
    intro processed cc outs h
    simp only [runCells] at h
    cases hv : pyGet cdata "variant" with
    | error e =>
      rw [hv] at h
      simp [Prod.mk.injEq] at h
    | ok variant =>
      rw [hv] at h
      by_cases hviz : (variant == JVal.jstr "visualization") = true
      · simp only [hviz, if_true] at h
        cases hp : processVizCell O dash contents cid cdata processed (cc + 1) with
        | mk evs res =>
          rw [hp] at h
          cases res with
          | error e => simp [Prod.mk.injEq] at h
          | ok vp =>
            obtain ⟨viz, processed'⟩ := vp
            dsimp only [] at h
            cases hrest : runCells O dash contents rest processed' (cc + 1) with
            | mk outs' err =>
              rw [hrest] at h
              simp only [Prod.mk.injEq] at h
              obtain ⟨h1, h2⟩ := h
              subst h1
              subst h2
              have hIH := ih processed' (cc + 1) outs' hrest
              obtain ⟨-, -, hcomp, hevs, hproc⟩ := processVizCell_ok hp
              simp only [List.map_cons, List.flatten_cons, List.filter_append,
                List.any_cons]
              rw [hevs, List.filter_append, filter_fetchEvents_query,
                List.nil_append]
              rw [hproc] at hIH
              rcases Bool.eq_false_or_eq_true (viz.queryId == q) with hqr | hqr
              · have hq : viz.queryId = q := eq_of_beq hqr
                subst hq
                simp only [cellRefs_some, hqr, Bool.true_or, Bool.and_true]
                by_cases hC : (viz.queryId.truthy &&
                    !(processed.contains viz.queryId)) = true
                · rw [if_pos hC] at hIH
                  rw [if_neg (by simp [contains_append_single, hqr])] at hIH
                  rw [hIH, List.append_nil, if_pos hC, filter_processQueryArtifacts,
                    if_pos hqr, hcomp, if_pos hC]
                · rw [if_neg hC] at hIH
                  rw [if_neg (by
                    intro hcontra
                    apply hC
                    simp only [Bool.and_eq_true] at hcontra
                    simp only [Bool.and_eq_true]
                    exact hcontra.1)] at hIH
                  rw [hIH, List.append_nil, if_neg hC, List.filter_nil, if_neg hC]
              · have hq2 : (q == viz.queryId) = false := by
                  rcases Bool.eq_false_or_eq_true (q == viz.queryId) with hq2 | hq2
                  · have := eq_of_beq hq2
                    subst this
                    simp at hqr
                  · exact hq2
                simp only [cellRefs_some, hqr, Bool.false_or]
                by_cases hC : (viz.queryId.truthy &&
                    !(processed.contains viz.queryId)) = true
                · rw [if_pos hC] at hIH
                  simp only [contains_append_single, hq2, Bool.or_false] at hIH
                  rw [if_pos hC, filter_processQueryArtifacts, if_neg (by simp [hqr]),
                    List.nil_append, hIH]
                · rw [if_neg hC] at hIH
                  rw [if_neg hC, List.filter_nil, List.nil_append, hIH]
      · rw [Bool.not_eq_true] at hviz
        simp only [hviz, Bool.false_eq_true, if_false] at h
        cases hrest : runCells O dash contents rest processed cc with
        | mk outs' err =>
          rw [hrest] at h
          simp only [Prod.mk.injEq] at h
          obtain ⟨h1, h2⟩ := h
          subst h1
          subst h2
          have hIH := ih processed cc outs' hrest
          simp only [List.map_cons, List.flatten_cons, List.filter_append,
            List.any_cons, cellRefs_none, Bool.false_or, List.filter_nil,
            List.nil_append]
          rw [hIH]

/-- A dashboard state blob whose two visualization cells reference the same
query id `q1`. -/
def dashC1 : JVal := .jobj [
  ("draftConfig", .jobj [
    ("contents", .jobj [
      ("c1", .jobj [("queryId", .jstr "q1"), ("visId", .jnull)]),
      ("c2", .jobj [("queryId", .jstr "q1"), ("visId", .jnull)])]),
    ("cells", .jobj [
      ("c1", .jobj [("variant", .jstr "visualization")]),
      ("c2", .jobj [("variant", .jstr "visualization")])])])]

/-- C1: when a truthy query id is referenced by at least two visualization
cells of the pass (and the pass completes without a raised error), the
query-directed side effects — the inline statement search, the SQL-fetch
fallback and the compass result fetch — are performed exactly once, by the
first cell in enumeration order whose descriptor references the id: that
cell's events restricted to the id are exactly one `processQueryArtifacts`
effect list, every other cell contributes no such event, and the whole
pass's events restricted to the id equal that single effect list. -/
theorem c1_query_dedupe (O : Oracles) (dash q : JVal)
    (hq : q.truthy = true)
    (href : 2 ≤ ((processDashboardVisualizations O dash).cells.countP
      (fun o => cellRefs o q)))
    (herr : (processDashboardVisualizations O dash).err = none) :
    (∀ i (hi : i < (processDashboardVisualizations O dash).cells.length),
      (((processDashboardVisualizations O dash).cells.get ⟨i, hi⟩).events.filter
          (isQueryEvent q)) =
        (if cellRefs ((processDashboardVisualizations O dash).cells.get ⟨i, hi⟩) q &&
            (((processDashboardVisualizations O dash).cells.take i).all
              (fun o => !(cellRefs o q)))
         then processQueryArtifacts O dash q (findCompassIdForQuery q dash)
         else [])) ∧
    ((processDashboardVisualizations O dash).events.filter (isQueryEvent q) =
      processQueryArtifacts O dash q (findCompassIdForQuery q dash)) := by
  cases hsel : selectConfigCells dash with
  | error e =>
    exfalso
    simp [processDashboardVisualizations, hsel] at herr
  | ok o =>
    cases o with
    | none =>
      exfalso
      simp [processDashboardVisualizations, hsel] at href
    | some ci =>
      obtain ⟨contents, items⟩ := ci
      cases hrun : runCells O dash contents items [] 0 with
      | mk outs err =>
        have hP : processDashboardVisualizations O dash = ⟨outs, err⟩ := by
          simp [processDashboardVisualizations, hsel, hrun]
        rw [hP] at herr href ⊢
        dsimp only [] at herr href ⊢
        subst herr
        constructor
        · intro i hi
          have h := runCells_query_events O dash contents q items [] 0 outs hrun i hi
          rw [h]
          simp only [hq, show (([] : List JVal).contains q) = false from rfl,
            Bool.not_false, Bool.true_and]
        · have h2 := runCells_total_query_events O dash contents q items [] 0 outs hrun
          have hany : (outs.any (fun o => cellRefs o q)) = true := by
            have hpos : 0 < outs.countP (fun o => cellRefs o q) :=
              Nat.lt_of_lt_of_le (by decide) href
            rcases List.countP_pos_iff.mp hpos with ⟨x, hx, hpx⟩
            exact List.any_eq_true.mpr ⟨x, hx, hpx⟩
          simp only [ProcOut.events]
          rw [h2]
          simp [hq, hany]

theorem c1_query_dedupe_witness :
    (processDashboardVisualizations O0 dashC1).events.filter
        (isQueryEvent (.jstr "q1")) =
      processQueryArtifacts O0 dashC1 (.jstr "q1")
        (findCompassIdForQuery (.jstr "q1") dashC1) :=
  (c1_query_dedupe O0 dashC1 (.jstr "q1") (by decide) (by decide) (by decide)).2

/-- The chart indices handed out along the loop: starting after `cc`, each
`visualization`-variant cell gets the next index, so a completed run
yields the consecutive block of length the number of such cells. -/
theorem runCells_chartIdx (O : Oracles) (dash contents : JVal)
    (cells : List (String × JVal)) :
    ∀ (processed : List JVal) (cc : Nat) (outs : List CellOut),
      runCells O dash contents cells processed cc = (outs, none) →
      ((outs.filterMap (fun o => o.viz)).map (fun v => v.chartIdx)) =
        List.range' (cc + 1) (cells.countP (fun kv =>
          match pyGet kv.2 "variant" with
          | .ok v => v == JVal.jstr "visualization"
          | .error _ => false)) := by
  induction cells with
  | nil =>
    intro processed cc outs h
    simp only [runCells, Prod.mk.injEq] at h
    obtain ⟨h1, -⟩ := h
    subst h1
    simp
  | cons cell rest ih =>
    obtain ⟨cid, cdata⟩ := cell
    intro processed cc outs h
    simp only [runCells] at h
    cases hv : pyGet cdata "variant" with
    | error e =>
      rw [hv] at h
      simp [Prod.mk.injEq] at h
    | ok variant =>
      rw [hv] at h
      by_cases hviz : (variant == JVal.jstr "visualization") = true
      · simp only [hviz, if_true] at h
        cases hp : processVizCell O dash contents cid cdata processed (cc + 1) with
        | mk evs res =>
          rw [hp] at h
          cases res with
          | error e => simp [Prod.mk.injEq] at h
          | ok vp =>
            obtain ⟨viz, processed'⟩ := vp
            dsimp only [] at h
            cases hrest : runCells O dash contents rest processed' (cc + 1) with
            | mk outs' err =>
              rw [hrest] at h
              simp only [Prod.mk.injEq] at h
              obtain ⟨h1, h2⟩ := h
              subst h1
              subst h2
              obtain ⟨hidx, -, -, -, -⟩ := processVizCell_ok hp
              have hIH := ih processed' (cc + 1) outs' hrest
              have hpred : (fun kv : String × JVal =>
                  match pyGet kv.2 "variant" with
                  | .ok v => v == JVal.jstr "visualization"
                  | .error _ => false) (cid, cdata) = true := by
                simp [hv, hviz]
              simp only [List.countP_cons, hpred, eq_self_iff_true, if_true,
                List.filterMap_cons]
              rw [List.map_cons, hIH, hidx, List.range'_succ]
      · rw [Bool.not_eq_true] at hviz
        simp only [hviz, Bool.false_eq_true, if_false] at h
        cases hrest : runCells O dash contents rest processed cc with
        | mk outs' err =>
          rw [hrest] at h
          simp only [Prod.mk.injEq] at h
          obtain ⟨h1, h2⟩ := h
          subst h1
          subst h2
          have hIH := ih processed cc outs' hrest
          simp only [List.countP_cons, hv, hviz, List.filterMap_cons]
          rw [hIH]
          simp

/-- C2: when the pass completes without a raised error, the emitted
visualization descriptors carry chart indices exactly `1, 2, ..., N` for
`N` the number of `visualization`-variant cells of the selected
configuration, with no gaps or repeats, in cell-enumeration order (the
enumeration is a pure function of the oracles and the blob, so re-running
it on the same configuration yields the same sequence definitionally). -/
theorem c2_chart_indices (O : Oracles) (dash : JVal)
    (herr : (processDashboardVisualizations O dash).err = none) :
    ((processDashboardVisualizations O dash).vizs.map (fun v => v.chartIdx)) =
      List.range' 1 (vizCellCount dash) := by
  cases hsel : selectConfigCells dash with
  | error e =>
    exfalso
    simp [processDashboardVisualizations, hsel] at herr
  | ok o =>
    cases o with
    | none =>
      simp [processDashboardVisualizations, hsel, ProcOut.vizs, vizCellCount]
    | some ci =>
      obtain ⟨contents, items⟩ := ci
      cases hrun : runCells O dash contents items [] 0 with
      | mk outs err =>
        have hP : processDashboardVisualizations O dash = ⟨outs, err⟩ := by
          simp [processDashboardVisualizations, hsel, hrun]
        rw [hP] at herr ⊢
        dsimp only [] at herr
        subst herr
        have h := runCells_chartIdx O dash contents items [] 0 outs hrun
        have hcount : vizCellCount dash = items.countP (fun kv =>
            match pyGet kv.2 "variant" with
            | .ok v => v == JVal.jstr "visualization"
            | .error _ => false) := by
          simp [vizCellCount, hsel]
        rw [hcount, ProcOut.vizs]
        exact h

theorem c2_chart_indices_witness :
    (processDashboardVisualizations O0 dashC1).vizs.map (fun v => v.chartIdx) =
      List.range' 1 (vizCellCount dashC1) :=
  c2_chart_indices O0 dashC1 (by decide)

theorem filter_fetchEvents_vizFetch (O : Oracles) (v : JVal) :
    (fetchChartConfigFromApi O v).1.filter isVizFetchEvent =
      (if v.truthy then [Event.vizApiFetch v] else []) := by
  unfold fetchChartConfigFromApi
  by_cases ht : v.truthy = true <;> simp [ht, isVizFetchEvent, List.filter]

/-- Each completed cell performs the live chart-config fetch exactly for
its own (truthy) `visId` — one call per cell, with no cross-cell
deduplication. -/
theorem runCells_vizfetch (O : Oracles) (dash contents : JVal)
    (cells : List (String × JVal)) :
    ∀ (processed : List JVal) (cc : Nat) (outs : List CellOut),
      runCells O dash contents cells processed cc = (outs, none) →
      ∀ i (hi : i < outs.length),
        ((outs.get ⟨i, hi⟩).events.filter isVizFetchEvent) =
          (match (outs.get ⟨i, hi⟩).viz with
           | some v => if v.visId.truthy then [Event.vizApiFetch v.visId] else []
           | none => []) := by
  induction cells with
  | nil =>
    intro processed cc outs h i hi
    simp only [runCells, Prod.mk.injEq] at h
    obtain ⟨h1, -⟩ := h
    subst h1
    exact absurd hi (by simp)
  | cons cell rest ih =>
    obtain ⟨cid, cdata⟩ := cell
    intro processed cc outs h i hi
    simp only [runCells] at h
    cases hv : pyGet cdata "variant" with
    | error e =>
      rw [hv] at h
      simp [Prod.mk.injEq] at h
    | ok variant =>
      rw [hv] at h
      by_cases hviz : (variant == JVal.jstr "visualization") = true
      · simp only [hviz, if_true] at h
        cases hp : processVizCell O dash contents cid cdata processed (cc + 1) with
        | mk evs res =>
          rw [hp] at h
          cases res with
          | error e => simp [Prod.mk.injEq] at h
          | ok vp =>
            obtain ⟨viz, processed'⟩ := vp
            dsimp only [] at h
            cases hrest : runCells O dash contents rest processed' (cc + 1) with
            | mk outs' err =>
              rw [hrest] at h
              simp only [Prod.mk.injEq] at h
              obtain ⟨h1, h2⟩ := h
              subst h1
              subst h2
              obtain ⟨-, -, -, hevs, -⟩ := processVizCell_ok hp
              cases i with
              | zero =>
                simp only [List.get]
                rw [hevs, List.filter_append, filter_fetchEvents_vizFetch]
                by_cases hC : (viz.queryId.truthy &&
                    !(processed.contains viz.queryId)) = true
                · rw [if_pos hC, filter_processQueryArtifacts_vizFetch,
                    List.append_nil]
                · rw [if_neg hC, List.filter_nil, List.append_nil]
              | succ i' =>
                have hi' : i' < outs'.length := by simpa using hi
                exact ih processed' (cc + 1) outs' hrest i' hi'
      · rw [Bool.not_eq_true] at hviz
        simp only [hviz, Bool.false_eq_true, if_false] at h
        cases hrest : runCells O dash contents rest processed cc with
        | mk outs' err =>
          rw [hrest] at h
          simp only [Prod.mk.injEq] at h
          obtain ⟨h1, h2⟩ := h
          subst h1
          subst h2
          cases i with
          | zero => simp [List.filter]
          | succ i' =>
            have hi' : i' < outs'.length := by simpa using hi
            exact ih processed cc outs' hrest i' hi'

/-- A dashboard state blob whose two visualization cells share the same
`visId`. -/
def dashC7 : JVal := .jobj [
  ("draftConfig", .jobj [
    ("contents", .jobj [
      ("c1", .jobj [("queryId", .jnull), ("visId", .jstr "v1")]),
      ("c2", .jobj [("queryId", .jnull), ("visId", .jstr "v1")])]),
    ("cells", .jobj [
      ("c1", .jobj [("variant", .jstr "visualization")]),
      ("c2", .jobj [("variant", .jstr "visualization")])])])]

/-- C7 counterexample: on a blob whose two visualization cells share the
`visId` `v1`, the completed pass performs the live chart-config fetch for
`v1` twice — there is no per-`visId` deduplication, refuting "at most once
per distinct visId". -/
theorem c7_counterexample :
    (processDashboardVisualizations O0 dashC7).err = none ∧
    ((processDashboardVisualizations O0 dashC7).events.countP
      (fun e => e == Event.vizApiFetch (.jstr "v1"))) = 2 ∧
    ¬(((processDashboardVisualizations O0 dashC7).events.countP
      (fun e => e == Event.vizApiFetch (.jstr "v1"))) ≤ 1) := by
  refine ⟨by decide, by decide, by decide⟩

/-- C7 (amended): the live chart-config fetch is performed once per
visualization cell with a truthy `visId` (zero calls for a falsy one), so
cells sharing a `visId` each refetch it; a failed fetch is non-fatal and
yields the empty configuration `{}`, in which case the `type` lookup falls
back to the embedded-state chart type and the title resolution falls back
to the embedded-state title chain. -/
theorem c7_fetch_per_cell (O : Oracles) (dash : JVal)
    (herr : (processDashboardVisualizations O dash).err = none) :
    (∀ i (hi : i < (processDashboardVisualizations O dash).cells.length),
      (((processDashboardVisualizations O dash).cells.get ⟨i, hi⟩).events.filter
          isVizFetchEvent) =
        (match ((processDashboardVisualizations O dash).cells.get ⟨i, hi⟩).viz with
         | some v => if v.visId.truthy then [Event.vizApiFetch v.visId] else []
         | none => [])) ∧
    (∀ visId, O.vizApi visId = none →
      (fetchChartConfigFromApi O visId).2 = .jobj []) ∧
    (∀ vc cd, extractChartTitleWithApi vc cd dash (.jobj []) =
      extractChartTitle vc cd dash) ∧
    (∀ t, pyGetD (.jobj []) "type" t = .ok t) := by
  refine ⟨?_, ?_, ?_, ?_⟩
  · cases hsel : selectConfigCells dash with
    | error e =>
      exfalso
      simp [processDashboardVisualizations, hsel] at herr
    | ok o =>
      cases o with
      | none =>
        intro i hi
        exfalso
        rw [processDashboardVisualizations] at hi
        rw [hsel] at hi
        simp at hi
      | some ci =>
        obtain ⟨contents, items⟩ := ci
        cases hrun : runCells O dash contents items [] 0 with
        | mk outs err =>
          have hP : processDashboardVisualizations O dash = ⟨outs, err⟩ := by
            simp [processDashboardVisualizations, hsel, hrun]
          rw [hP] at herr ⊢
          dsimp only [] at herr
          subst herr
          exact runCells_vizfetch O dash contents items [] 0 outs hrun
  · intro visId hnone
    unfold fetchChartConfigFromApi
    by_cases ht : visId.truthy = true <;> simp [ht, hnone]
  · intro vc cd
    rfl
  · intro t
    rfl

theorem c7_fetch_per_cell_witness :
    (fetchChartConfigFromApi O0 (.jstr "v1")).2 = .jobj [] ∧
    extractChartTitleWithApi (.jobj []) (.jobj []) dashC7 (.jobj []) =
      extractChartTitle (.jobj []) (.jobj []) dashC7 :=
  ⟨(c7_fetch_per_cell O0 dashC7 (by decide)).2.1 (.jstr "v1") rfl,
   (c7_fetch_per_cell O0 dashC7 (by decide)).2.2.1 (.jobj []) (.jobj [])⟩

/-- The configuration chooser as the specification words it: the
`published` variant when present and non-null, otherwise the `draft`
variant. -/
def specConfigKeyClaimed (dashboardData : JVal) : String :=
  match dashboardData with
  | .jobj fs =>
    match jlookup fs "publishedConfig" with
    | some v => if v == JVal.jnull then "draftConfig" else "publishedConfig"
    | none => "draftConfig"
  | _ => "draftConfig"

/-- Fields of a blob with a null `publishedConfig` next to a populated
`draftConfig`. -/
def b6fs : List (String × JVal) := [
  ("publishedConfig", .jnull),
  ("draftConfig", .jobj [
    ("contents", .jobj [("c1", .jobj [("queryId", .jnull), ("visId", .jnull)])]),
    ("cells", .jobj [("c1", .jobj [("variant", .jstr "visualization")])])])]

def b6 : JVal := .jobj b6fs

/-- The same blob with the `publishedConfig` key absent. -/
def b6Draft : JVal := .jobj [
  ("draftConfig", .jobj [
    ("contents", .jobj [("c1", .jobj [("queryId", .jnull), ("visId", .jnull)])]),
    ("cells", .jobj [("c1", .jobj [("variant", .jstr "visualization")])])])]

/-- C6 counterexample: on a blob whose `publishedConfig` key is present but
null, the spec's chooser would use the draft variant (which enumerates one
visualization cell, as the key-less variant of the blob shows), but the
code still selects the null published config, so the pass raises an
`AttributeError` and emits no visualizations at all. -/
theorem c6_counterexample :
    specConfigKeyClaimed b6 = "draftConfig" ∧
    (processDashboardVisualizations O0 b6).vizs = [] ∧
    (processDashboardVisualizations O0 b6).err = some .attributeError ∧
    (processDashboardVisualizations O0 b6Draft).vizs.length = 1 := by
  refine ⟨rfl, by decide, by decide, by decide⟩

/-- C6 (amended): the cell enumeration selects the `publishedConfig` entry
exactly when that key is present, regardless of its value — a present but
null published config is still selected (its `.get` then raises, aborting
the enumeration) — and only an absent key falls back to `draftConfig`
(itself defaulting to no cells when also absent). -/
theorem c6_config_key (fs : List (String × JVal)) :
    (∀ v, jlookup fs "publishedConfig" = some v →
      selectConfigCells (.jobj fs) =
        (pyGetD v "contents" (.jobj []) >>= fun contents =>
          pyGetD v "cells" (.jobj []) >>= fun cellsV =>
          pyItems cellsV >>= fun items => pure (some (contents, items)))) ∧
    (jlookup fs "publishedConfig" = some .jnull →
      selectConfigCells (.jobj fs) = .error .attributeError) ∧
    (jlookup fs "publishedConfig" = none →
      selectConfigCells (.jobj fs) =
        (match jlookup fs "draftConfig" with
         | some cfg =>
            (pyGetD cfg "contents" (.jobj []) >>= fun contents =>
              pyGetD cfg "cells" (.jobj []) >>= fun cellsV =>
              pyItems cellsV >>= fun items => pure (some (contents, items)))
         | none => .ok none)) := by
  refine ⟨?_, ?_, ?_⟩
  · intro v hv
    have hany : fs.any (fun kv => kv.1 == "publishedConfig") = true := by
      rw [← jlookup_isSome_any, hv]
      rfl
    simp [selectConfigCells, pyContains, pySubscript, hany, hv]
  · intro hv
    have hany : fs.any (fun kv => kv.1 == "publishedConfig") = true := by
      rw [← jlookup_isSome_any, hv]
      rfl
    simp [selectConfigCells, pyContains, pySubscript, hany, hv, pyGetD]
  · intro hv
    have hany : fs.any (fun kv => kv.1 == "publishedConfig") = false := by
      rw [← jlookup_isSome_any, hv]
      rfl
    cases hd : jlookup fs "draftConfig" with
    | none =>
      have hany2 : fs.any (fun kv => kv.1 == "draftConfig") = false := by
        rw [← jlookup_isSome_any, hd]
        rfl
      simp [selectConfigCells, pyContains, pySubscript, hany, hany2, hd]
      rfl
    | some cfg =>
      have hany2 : fs.any (fun kv => kv.1 == "draftConfig") = true := by
        rw [← jlookup_isSome_any, hd]
        rfl
      simp [selectConfigCells, pyContains, pySubscript, hany, hany2, hd]

theorem c6_config_key_witness :
    jlookup b6fs "publishedConfig" = some .jnull ∧
    selectConfigCells (.jobj b6fs) = .error .attributeError :=
  ⟨rfl, (c6_config_key b6fs).2.1 rfl⟩

/-- A well-formed blob whose single visualization cell has no `queryId`
key (so `viz_info['query_id']` holds `None`). -/
def blob9 : JVal := .jobj [
  ("draftConfig", .jobj [
    ("contents", .jobj [("c1", .jobj [("visId", .jnull)])]),
    ("cells", .jobj [("c1", .jobj [("variant", .jstr "visualization")])])])]

/-- Oracles for a run whose page fetch succeeds and whose single script
region decodes to a remix document carrying `blob9`. -/
def O9 : Oracles :=
  { scripts := [some (.jobj [("state", .jobj [("loaderData",
      .jobj [("r", .jobj [("dashboard", blob9)])])])])] }

/-- C9: the claim's fatal category is refuted by the code: on a URL with an
extractable slug and a successful page fetch, a state blob whose single
visualization cell merely lacks a `queryId` — a field-resolution gap the
claim says is swallowed — makes `download` raise a `TypeError`: the pass
itself completes without error and emits the descriptor (with a `None`
query id), but `_generate_html` slices `query_id[:8]` without a null
check, and that error propagates to the caller. -/
theorem c9_missing_queryid_crashes_download :
    extractSlug "https://flipsidecrypto.xyz/team/demo" = some "demo" ∧
    O9.fetchPage = some "" ∧
    (extractVisualizations O9).toOption.map
      (fun p => (p.err, p.vizs.map (fun v => v.queryId))) =
      some (none, [.jnull]) ∧
    download O9 "https://flipsidecrypto.xyz/team/demo" = .error .typeError := by
  refine ⟨by decide, rfl, by decide, rfl⟩
